import Mathlib

/-!
# ASET-X/Vector: a shallow embedding of `vector2.js`, `vector3.js` and `utils/`

The library is JavaScript, so the embedding starts with the part of the host
language the source relies on: values, truthiness, `||`, `===`, the numeric
operators and the object-to-primitive coercion.

Modelling decisions (each one is local to a definition below):

* **Numbers.** A JavaScript number is `JSNumber`: a finite value, `NaN`,
  `+Infinity` or `-Infinity`. Finite values are exact rationals: arithmetic on
  them is exact (no rounding, no overflow to `Infinity`) and there is no
  negative zero.
* **Objects.** Operands are immutable snapshots: a plain data object is known
  by what its properties `x`, `y`, `z` read as (an absent property reads
  `undefined`), an instance of `Vector2`/`Vector3` by its components, an array
  by its items. Plain objects carry no `valueOf`/`toString` of their own.
  Where it matters which object a state belongs to (`clone()`, an operand that
  is the receiver itself), the section *Objects with identity* keeps the states
  in a store.
* **The receiver.** A method of a vector is a function from the receiver's
  components before the call to its components after the call together with
  the completion of the call (`Outcome`), so that the state in which a call
  throws is part of the model.
* **`Math`.** `Math.sqrt`, `Math.cos`, `Math.sin` and `Math.atan2` are host
  functions on doubles; they are parameters (`MathLib`).
* **Scope.** The files are ES modules: an identifier that no declaration of the
  module binds resolves to nothing (no global named `x`, `y` or `isUndefined`
  is assumed), and reading or calling it throws.
* **What is left out.** `Number::toString` of a non-integer, the parsing of a
  string that could be a numeric literal, and the comparison of two strings are
  not computed; the model stops there with `JSError.unmodelled`.
-/

namespace VectorLib

/-! ## Host language: values -/

/-- A JavaScript number. -/
inductive JSNumber where
  | fin (q : ℚ)
  | nan
  | posInf
  | negInf
  deriving DecidableEq, Repr

/-- A JavaScript value, as far as the library can tell values apart. -/
inductive Value where
  | undefined
  | null
  | boolean (b : Bool)
  | number (n : JSNumber)
  | string (s : String)
  /-- A plain data object `{x, y, z}`; an absent property is `undefined`. -/
  | object (x y z : Value)
  /-- An instance of the class `Vector2`. -/
  | vector2 (x y : Value)
  /-- An instance of the class `Vector3`. -/
  | vector3 (x y z : Value)
  | array (items : List Value)

/-- What a `throw` carries. -/
inductive JSError where
  /-- The `new Error(message)` of `utils/assert.js`. -/
  | error (message : String)
  /-- The host's `ReferenceError`: an identifier that resolves to nothing. -/
  | referenceError
  /-- The host's `TypeError`: calling what is not a function. -/
  | typeError
  /-- Not a JavaScript error: the model does not compute this step. -/
  | unmodelled
  deriving DecidableEq, Repr

/-- The finite number `q` as a value. -/
def Value.num (q : ℚ) : Value := .number (.fin q)

namespace JSNumber

def isZero : JSNumber → Bool
  | fin q => decide (q = 0)
  | _ => false

def isNegative : JSNumber → Bool
  | fin q => decide (q < 0)
  | negInf => true
  | _ => false

/-- The infinity of the given sign. -/
def infinity (negative : Bool) : JSNumber := if negative then negInf else posInf

def neg : JSNumber → JSNumber
  | fin q => fin (-q)
  | nan => nan
  | posInf => negInf
  | negInf => posInf

/-- Number addition `a + b`. -/
def add : JSNumber → JSNumber → JSNumber
  | fin a, fin b => fin (a + b)
  | nan, _ => nan
  | _, nan => nan
  | posInf, negInf => nan
  | negInf, posInf => nan
  | posInf, _ => posInf
  | negInf, _ => negInf
  | fin _, posInf => posInf
  | fin _, negInf => negInf

/-- Number subtraction `a - b`. -/
def sub (a b : JSNumber) : JSNumber := add a (neg b)

/-- Number multiplication `a * b`. -/
def mul : JSNumber → JSNumber → JSNumber
  | fin a, fin b => fin (a * b)
  | nan, _ => nan
  | _, nan => nan
  | a, b =>
    if a.isZero || b.isZero then nan
    else infinity (a.isNegative != b.isNegative)

/-- Number division `a / b`. -/
def div : JSNumber → JSNumber → JSNumber
  | nan, _ => nan
  | _, nan => nan
  | fin a, fin b =>
    if b = 0 then
      if a = 0 then nan else infinity (decide (a < 0))
    else fin (a / b)
  | fin _, _ => fin 0
  | a, fin b => infinity (a.isNegative != decide (b < 0))
  | _, _ => nan

/-- The square `a ** 2`. -/
def sq (a : JSNumber) : JSNumber := mul a a

/-- The comparison `a < b` of two numbers; false when either is `NaN`. -/
def lt : JSNumber → JSNumber → Bool
  | fin a, fin b => decide (a < b)
  | nan, _ => false
  | _, nan => false
  | negInf, negInf => false
  | negInf, _ => true
  | _, negInf => false
  | posInf, _ => false
  | _, posInf => true

/-- Strict equality `a === b` of two numbers; `NaN` equals nothing. -/
def strictEq : JSNumber → JSNumber → Bool
  | fin a, fin b => decide (a = b)
  | posInf, posInf => true
  | negInf, negInf => true
  | _, _ => false

/-- `Number::toString` for `NaN`, the infinities and the integers below
`10^21` (above, JavaScript switches to exponent notation). -/
def toJSString : JSNumber → Except JSError String
  | nan => .ok "NaN"
  | posInf => .ok "Infinity"
  | negInf => .ok "-Infinity"
  | fin q =>
    if q.den = 1 ∧ q.num.natAbs < 10 ^ 21 then .ok (toString q.num)
    else .error .unmodelled

end JSNumber

/-- Characters that occur in some numeric literal (digits, sign, point,
exponent, radix prefixes, hexadecimal digits, the letters of `Infinity`). -/
def numericLiteralChars : List Char :=
  "0123456789+-.eExXoObBaAcCdDfFInity".toList

/-- A string without its leading and trailing blanks (space, tab, line ends). -/
def trimBlanks (cs : List Char) : List Char :=
  ((cs.dropWhile Char.isWhitespace).reverse.dropWhile Char.isWhitespace).reverse

/-- The number a string of decimal digits writes. -/
def digitsValue (cs : List Char) : Nat :=
  cs.foldl (fun n c => 10 * n + (c.toNat - 48)) 0

/-- `StringToNumber`: the empty string and blank strings are `0`, a string of
decimal digits is that integer, and a string holding a printable ASCII
character that no numeric literal contains is `NaN`. -/
def stringToNumber (s : String) : Except JSError JSNumber :=
  let t := trimBlanks s.toList
  if t.isEmpty then .ok (.fin 0)
  else if t.all Char.isDigit then .ok (.fin (digitsValue t))
  else if t.any (fun c => decide (32 < c.toNat ∧ c.toNat < 127) && !numericLiteralChars.contains c)
  then .ok .nan
  else .error .unmodelled

/-! ## Host language: conversions -/

mutual
/-- `ToString(value)`. For an object this is its `toString()`: the built-in
one for a plain object and for an array (`join`), `vector3.js`:187 for a
`Vector3`, and `vector2.js`:165 for a `Vector2`, whose template reads the
identifiers `x` and `y`, which are bound nowhere: it throws. -/
def toStringJS : Value → Except JSError String
  | .undefined => .ok "undefined"
  | .null => .ok "null"
  | .boolean b => .ok (if b then "true" else "false")
  | .number n => n.toJSString
  | .string s => .ok s
  | .object _ _ _ => .ok "[object Object]"
  | .vector2 _ _ => .error .referenceError
  | .vector3 x y z => do
    let sx ← toStringJS x
    let sy ← toStringJS y
    let sz ← toStringJS z
    .ok ("[Vector3 " ++ sx ++ "," ++ sy ++ "," ++ sz ++ "]")
  | .array items => joinItems items
/-- `Array.prototype.join(",")`. -/
def joinItems : List Value → Except JSError String
  | [] => .ok ""
  | [v] => itemString v
  | v :: rest => do
    let s ← itemString v
    let t ← joinItems rest
    .ok (s ++ "," ++ t)
/-- One item of `join`: `undefined` and `null` give the empty string. -/
def itemString : Value → Except JSError String
  | .undefined => .ok ""
  | .null => .ok ""
  | v => toStringJS v
end

/-- Whether a value is an object (and not a primitive). -/
def Value.isObject : Value → Bool
  | .object _ _ _ => true
  | .vector2 _ _ => true
  | .vector3 _ _ _ => true
  | .array _ => true
  | _ => false

/-- `ToPrimitive(value)`: a primitive is itself; an object of this model has
the built-in `valueOf`, which returns the object, so its `toString()` decides. -/
def toPrimitive (value : Value) : Except JSError Value :=
  if value.isObject then do
    let s ← toStringJS value
    .ok (.string s)
  else .ok value

/-- `ToNumber(value)`. -/
def toNumber (value : Value) : Except JSError JSNumber := do
  match ← toPrimitive value with
  | .undefined => .ok .nan
  | .null => .ok (.fin 0)
  | .boolean b => .ok (.fin (if b then 1 else 0))
  | .number n => .ok n
  | .string s => stringToNumber s
  | _ => .error .unmodelled

/-- `ToBoolean(value)`. -/
def truthy : Value → Bool
  | .undefined => false
  | .null => false
  | .boolean b => b
  | .number (.fin q) => decide (q ≠ 0)
  | .number .nan => false
  | .number _ => true
  | .string s => !s.isEmpty
  | _ => true

/-! ## Host language: operators -/

/-- The operator `a || b`. -/
def jsOr (a b : Value) : Value := if truthy a then a else b

/-- The operator `a + b`: concatenation when either side is a string once made
primitive, addition of numbers otherwise. -/
def jsAdd (a b : Value) : Except JSError Value := do
  let pa ← toPrimitive a
  let pb ← toPrimitive b
  match pa, pb with
  | .string s, _ => do
    let t ← toStringJS pb
    .ok (.string (s ++ t))
  | _, .string t => do
    let s ← toStringJS pa
    .ok (.string (s ++ t))
  | _, _ => do
    let na ← toNumber pa
    let nb ← toNumber pb
    .ok (.number (na.add nb))

/-- A numeric operator: both sides go through `ToNumber`, left first. -/
def numericOp (op : JSNumber → JSNumber → JSNumber) (a b : Value) : Except JSError Value := do
  let na ← toNumber a
  let nb ← toNumber b
  .ok (.number (op na nb))

/-- The operator `a - b`. -/
def jsSub : Value → Value → Except JSError Value := numericOp JSNumber.sub

/-- The operator `a * b`. -/
def jsMul : Value → Value → Except JSError Value := numericOp JSNumber.mul

/-- The operator `a / b`. -/
def jsDiv : Value → Value → Except JSError Value := numericOp JSNumber.div

/-- The expression `a ** 2`. -/
def jsSq (a : Value) : Except JSError Value := do
  let na ← toNumber a
  .ok (.number na.sq)

/-- The operator `a < b`. -/
def jsLt (a b : Value) : Except JSError Bool := do
  let pa ← toPrimitive a
  let pb ← toPrimitive b
  match pa, pb with
  | .string _, .string _ => .error .unmodelled
  | _, _ => do
    let na ← toNumber pa
    let nb ← toNumber pb
    .ok (na.lt nb)

/-- The operator `a > b`, which is `b < a` with `a` made primitive first. -/
def jsGt (a b : Value) : Except JSError Bool := do
  let pa ← toPrimitive a
  let pb ← toPrimitive b
  match pa, pb with
  | .string _, .string _ => .error .unmodelled
  | _, _ => do
    let na ← toNumber pa
    let nb ← toNumber pb
    .ok (nb.lt na)

/-- The operator `a === b`. Two objects are the same only when they are one
object, which a snapshot cannot tell: the source compares against a number on
the right everywhere, so that case is answered `false`. -/
def strictEq : Value → Value → Bool
  | .undefined, .undefined => true
  | .null, .null => true
  | .boolean a, .boolean b => a == b
  | .number a, .number b => a.strictEq b
  | .string a, .string b => a == b
  | _, _ => false

/-- Reading the property `x` of a value that is neither `null` nor
`undefined` (the source reads it only behind `isDefined` or an assertion). -/
def Value.x : Value → Value
  | .object x _ _ => x
  | .vector2 x _ => x
  | .vector3 x _ _ => x
  | _ => .undefined

/-- Reading the property `y`. -/
def Value.y : Value → Value
  | .object _ y _ => y
  | .vector2 _ y => y
  | .vector3 _ y _ => y
  | _ => .undefined

/-- Reading the property `z`. -/
def Value.z : Value → Value
  | .object _ _ z => z
  | .vector3 _ _ z => z
  | _ => .undefined

/-- Reading the index `i` of an array. -/
def Value.index (i : Nat) : Value → Value
  | .array items => items.getD i .undefined
  | _ => .undefined

/-- The host's `Math` functions the library calls, on numbers. -/
structure MathLib where
  sqrt : JSNumber → JSNumber
  cos : JSNumber → JSNumber
  sin : JSNumber → JSNumber
  atan2 : JSNumber → JSNumber → JSNumber

/-- The host functions of a run in which `Math.sqrt(1)` is `1`, `Math.cos(0)`
is `1`, `Math.sin(0)` is `0` and `Math.atan2(0, 1)` is `0`, as in JavaScript,
and which answers `NaN` elsewhere. -/
def MathLib.atUnit : MathLib where
  sqrt n := if n = .fin 1 then .fin 1 else .nan
  cos n := if n = .fin 0 then .fin 1 else .nan
  sin n := if n = .fin 0 then .fin 0 else .nan
  atan2 a b := if a = .fin 0 ∧ b = .fin 1 then .fin 0 else .nan

/-- The host functions of a run in which `Math.sqrt` is exact at `0`, `1`, `9`
and `25`, `Math.cos(0)` is `1` and `Math.sin(0)` is `0`, as in JavaScript, and
which answers `NaN` elsewhere. -/
def MathLib.atSquares : MathLib where
  sqrt n :=
    if n = .fin 25 then .fin 5
    else if n = .fin 9 then .fin 3
    else if n = .fin 1 then .fin 1
    else if n = .fin 0 then .fin 0
    else .nan
  cos n := if n = .fin 0 then .fin 1 else .nan
  sin n := if n = .fin 0 then .fin 0 else .nan
  atan2 _ _ := .nan

/-- The host functions of a run in which `Math.sqrt(2)` is the double nearest
to the square root of two, `6369051672525773 / 2^52` (printed
`1.4142135623730951`), as in JavaScript, and which answers `NaN` elsewhere. -/
def MathLib.atTwo : MathLib where
  sqrt n := if n = .fin 2 then .fin (6369051672525773 / 4503599627370496) else .nan
  cos _ := .nan
  sin _ := .nan
  atan2 _ _ := .nan

/-! ## Calls on a receiver -/

/-- A call on a receiver, observed from outside: the receiver's state after the
call (also when the call threw) and what the call returned or threw. -/
structure Outcome (σ α : Type) where
  state : σ
  result : Except JSError α

/-- The body of a method: statements run in order on the receiver's state, and
a `throw` ends the call with the state reached so far. -/
def Method (σ α : Type) : Type := σ → Outcome σ α

namespace Method

def pure {σ α : Type} (a : α) : Method σ α := fun s => ⟨s, .ok a⟩

def bind {σ α β : Type} (m : Method σ α) (f : α → Method σ β) : Method σ β := fun s =>
  match m s with
  | ⟨s1, .ok a⟩ => f a s1
  | ⟨s1, .error e⟩ => ⟨s1, .error e⟩

instance {σ : Type} : Monad (Method σ) where
  pure := Method.pure
  bind := Method.bind

/-- An expression that reads the receiver and may throw. -/
def read {σ α : Type} (f : σ → Except JSError α) : Method σ α := fun s => ⟨s, f s⟩

/-- An expression that does not involve the receiver and may throw. -/
def lift {σ α : Type} (e : Except JSError α) : Method σ α := fun s => ⟨s, e⟩

/-- An assignment to the receiver. -/
def modify {σ : Type} (f : σ → σ) : Method σ Unit := fun s => ⟨f s, .ok ()⟩

/-- A call `this.method(...)` from inside a method. -/
def invoke {σ α : Type} (f : σ → Outcome σ α) : Method σ α := f

/-- Running a method body on a receiver. -/
def run {σ α : Type} (self : σ) (m : Method σ α) : Outcome σ α := m self

end Method

/-- What a mutating method hands back: `this`, or nothing (`undefined`). -/
inductive Returned where
  | receiver
  | undefined
  deriving DecidableEq, Repr

/-! ## `utils/types.js` -/

/-- `isDefined(value)`: `value != null`. -/
def isDefined : Value → Bool
  | .undefined => false
  | .null => false
  | _ => true

/-- `isEmpty(value)`: `value == null`. -/
def isEmpty : Value → Bool
  | .undefined => true
  | .null => true
  | _ => false

/-- `isNumber(value)`: `typeof value === "number" && isFinite(value)`. -/
def isNumber : Value → Bool
  | .number (.fin _) => true
  | _ => false

/-- `isArray(value)`: `Array.isArray`. -/
def isArray : Value → Bool
  | .array _ => true
  | _ => false

/-- `is2DVectorLike(value)`. -/
def is2DVectorLike (value : Value) : Bool :=
  isDefined value && isNumber value.x && isNumber value.y

/-- `is3DVectorLike(value)`. -/
def is3DVectorLike (value : Value) : Bool :=
  isDefined value && isNumber value.x && isNumber value.y && isNumber value.z

/-- The name `isUndefined` that `vector3.js` imports from `utils/types.js`.
That file exports no such function (its exports are `isDefined`, `isEmpty`,
`isNumber`, `isArray`, `is2DVectorLike`, `is3DVectorLike`), so the name is
bound to nothing and a call of it throws. -/
def isUndefined (_value : Value) : Except JSError Bool := .error .typeError

/-! ## `utils/assert.js`, `utils/assertVector.js` -/

/-- The expression `message || fallback` on an optional string. -/
def messageOr (message : Option String) (fallback : String) : String :=
  match message with
  | some m => if m.isEmpty then fallback else m
  | none => fallback

/-- `assert(condition, message)`. -/
def assert (condition : Bool) (message : Option String) : Except JSError Unit :=
  if !condition then .error (.error (messageOr message "Assert error")) else .ok ()

/-- `assert.fail(message)`. -/
def assert.fail {α : Type} (message : String) : Except JSError α := .error (.error message)

/-- `assert3DVector(value, message)`. -/
def assert3DVector (value : Value) (message : Option String) : Except JSError Unit :=
  assert (is3DVectorLike value)
    (some (messageOr message "The argument must be a Vector like object \x7bx, y, z\x7d."))

/-- `assert2DVector(value, message)`. -/
def assert2DVector (value : Value) (message : Option String) : Except JSError Unit :=
  assert (is2DVectorLike value)
    (some (messageOr message "The argument must be a Vector like object \x7bx, y\x7d."))

/-- `Math.sqrt(value)`. -/
def mathSqrt (M : MathLib) (value : Value) : Except JSError Value := do
  let n ← toNumber value
  .ok (.number (M.sqrt n))

/-- `Math.cos(value)`. -/
def mathCos (M : MathLib) (value : Value) : Except JSError Value := do
  let n ← toNumber value
  .ok (.number (M.cos n))

/-- `Math.sin(value)`. -/
def mathSin (M : MathLib) (value : Value) : Except JSError Value := do
  let n ← toNumber value
  .ok (.number (M.sin n))

/-- `Math.atan2(a, b)`. -/
def mathAtan2 (M : MathLib) (a b : Value) : Except JSError Value := do
  let na ← toNumber a
  let nb ← toNumber b
  .ok (.number (M.atan2 na nb))

/-! ## `vector2.js` -/

/-- The state of a `Vector2`: its two own properties. They are values, not
numbers: `set` and `add` can store what is not a number. -/
structure Vector2 where
  x : Value
  y : Value

namespace Vector2

/-- The instance as an operand of another call. -/
def toValue (self : Vector2) : Value := .vector2 self.x self.y

/-- `ok(x, y)` of `vector2.js`. -/
def ok (x y : Value) : Bool := isNumber x && isNumber y

/-- `undef(x, y)` of `vector2.js`. -/
def undef (x y : Value) : Bool := isEmpty x && isEmpty y

/-- `new Vector2(x, y)`. -/
def constructor (x y : Value) : Except JSError Vector2 := do
  assert (ok x y || undef x y) (some "x and y must be a number.")
  .ok { x := jsOr x (.num 0), y := jsOr y (.num 0) }

/-- The assignment `this.x = value`. -/
def assignX (value : Value) : Method Vector2 Unit :=
  Method.modify fun self => { self with x := value }

/-- The assignment `this.y = value`. -/
def assignY (value : Value) : Method Vector2 Unit :=
  Method.modify fun self => { self with y := value }

/-- The compound assignment `this.x op= value`. -/
def compoundX (op : Value → Value → Except JSError Value) (value : Value) :
    Method Vector2 Unit := do
  let r ← Method.read fun self => op self.x value
  assignX r

/-- The compound assignment `this.y op= value`. -/
def compoundY (op : Value → Value → Except JSError Value) (value : Value) :
    Method Vector2 Unit := do
  let r ← Method.read fun self => op self.y value
  assignY r

/-- `set(value)`. -/
def set (self : Vector2) (value : Value) : Outcome Vector2 Returned :=
  Method.run self do
    if is2DVectorLike value then
      assignX value.x
      assignY value.y
    assignY (jsOr value (.num 0))
    assignX (jsOr value (.num 0))
    return .receiver

/-- `add(value)`. -/
def add (self : Vector2) (value : Value) : Outcome Vector2 Returned :=
  Method.run self do
    if is2DVectorLike value then
      compoundX jsAdd value.x
      compoundY jsAdd value.y
    compoundX jsAdd (jsOr value (.num 0))
    compoundY jsAdd (jsOr value (.num 0))
    return .receiver

/-- `subtract(value)`. -/
def subtract (self : Vector2) (value : Value) : Outcome Vector2 Returned :=
  Method.run self do
    if is2DVectorLike value then
      compoundX jsSub value.x
      compoundY jsSub value.y
    compoundX jsSub (jsOr value (.num 0))
    compoundY jsSub (jsOr value (.num 0))
    return .receiver

/-- `multiply(value)`. -/
def multiply (self : Vector2) (value : Value) : Outcome Vector2 Returned :=
  Method.run self do
    if is2DVectorLike value then
      compoundX jsMul value.x
      compoundY jsMul value.y
    compoundX jsMul (jsOr value (.num 0))
    compoundY jsMul (jsOr value (.num 0))
    return .receiver

/-- `divide(value)`. -/
def divide (self : Vector2) (value : Value) : Outcome Vector2 Returned :=
  Method.run self do
    if is2DVectorLike value then
      compoundX jsDiv value.x
      compoundY jsDiv value.y
    Method.lift (assert (!strictEq value (.num 0))
      (some "Vector.divide(); Argument is a `zero` value"))
    compoundX jsDiv (jsOr value (.num 1))
    compoundY jsDiv (jsOr value (.num 1))
    return .receiver

/-- `heading()`. -/
def heading (M : MathLib) (self : Vector2) : Except JSError Value :=
  mathAtan2 M self.y self.x

/-- `magSq()`. -/
def magSq (self : Vector2) : Except JSError Value := do
  let a ← jsSq self.x
  let b ← jsSq self.y
  jsAdd a b

/-- `mag()`. -/
def mag (M : MathLib) (self : Vector2) : Except JSError Value := do
  let s ← self.magSq
  mathSqrt M s

/-- `magnitude()`; `magSq` ignores the argument it is passed. -/
def magnitude (M : MathLib) (self : Vector2) : Except JSError Value := do
  let s ← self.magSq
  mathSqrt M s

/-- `setHeading(radians)`. The body has no `return`. -/
def setHeading (M : MathLib) (self : Vector2) (radians : Value) : Outcome Vector2 Returned :=
  Method.run self do
    let m ← Method.read (mag M)
    let c ← Method.lift (mathCos M radians)
    let nx ← Method.lift (jsMul m c)
    assignX nx
    let s ← Method.lift (mathSin M radians)
    let ny ← Method.lift (jsMul m s)
    assignY ny
    return .undefined

/-- `rotate(radians)`: returns what `setHeading` returns. -/
def rotate (M : MathLib) (self : Vector2) (radians : Value) : Outcome Vector2 Returned :=
  Method.run self do
    let h ← Method.read (heading M)
    let r ← Method.lift (jsAdd radians h)
    Method.invoke fun self => setHeading M self r

/-- `abs()`. -/
def abs (self : Vector2) : Outcome Vector2 Returned :=
  Method.run self do
    if ← Method.read fun self => jsLt self.x (.num 0) then
      compoundX jsMul (.num (-1))
    if ← Method.read fun self => jsLt self.y (.num 0) then
      compoundY jsMul (.num (-1))
    return .receiver

/-- `dot(vector)`. -/
def dot (self : Vector2) (vector : Value) : Except JSError Value := do
  assert2DVector vector none
  let a ← jsMul self.x vector.x
  let b ← jsMul self.y vector.y
  jsAdd a b

/-- `normalize()`. -/
def normalize (M : MathLib) (self : Vector2) : Outcome Vector2 Returned :=
  Method.run self do
    let magnitude ← Method.read (mag M)
    if !strictEq magnitude (.num 0) then
      let _ ← Method.invoke fun self => divide self magnitude
    return .receiver

/-- `equals(vector)`. -/
def equals (self : Vector2) (vector : Value) : Except JSError Bool := do
  assert2DVector vector none
  .ok (strictEq self.x vector.x && strictEq self.y vector.y)

/-- `clone()`. -/
def clone (self : Vector2) : Except JSError Vector2 := constructor self.x self.y

/-- `negative()`. -/
def negative (self : Vector2) : Outcome Vector2 Returned := multiply self (.num (-1))

/-- `isOK()`. -/
def isOK (self : Vector2) : Bool := ok self.x self.y

/-- `toString()`: the template reads the identifiers `x` and `y`, not
`this.x` and `this.y`; no binding of that name is in scope of the module, so
evaluating the first one throws. -/
def toString (_self : Vector2) : Except JSError String := .error .referenceError

/-- `toJSON()`. -/
def toJSON (self : Vector2) : Value := .object self.x self.y .undefined

/-- `toArray()`. -/
def toArray (self : Vector2) : Value := .array [self.x, self.y]

end Vector2

/-- `Vector2.from(target)`. -/
def Vector2.from (target : Value) : Except JSError Vector2 :=
  if is2DVectorLike target then Vector2.constructor target.x target.y
  else if isArray target then Vector2.constructor (target.index 0) (target.index 1)
  else if isNumber target then Vector2.constructor target target
  else assert.fail "Unexpected type target.Argument must be array or Vector like object."

namespace Vector2

/-- `Vector2.of(x, y)`. -/
def of (x y : Value) : Except JSError Vector2 := do
  assert (isNumber x) (some "X and Y must be a number.")
  let y := if !isNumber y then x else y
  constructor x y

/-- `Vector2.dot(A, B)`. -/
def dotStatic (A B : Value) : Except JSError Value := do
  assert2DVector A none
  assert2DVector B none
  let a ← jsMul A.x B.x
  let b ← jsMul A.y B.y
  jsAdd a b

/-- The value of a call `receiver.method(...)` whose result is the receiver of
the next call of a chain, or the result of the chain: the receiver after the
call when the method returned `this`. A method that returned `undefined`
makes the next call of the chain a `TypeError`. -/
def chain (call : Outcome Vector2 Returned) : Except JSError Vector2 :=
  match call.result with
  | .ok .receiver => .ok call.state
  | .ok .undefined => .error .typeError
  | .error e => .error e

/-- `Vector2.lerp(A, B, fraction)`:
`this.from(B).subtract(A).multiply(fraction).add(A)`. -/
def lerp (A B fraction : Value) : Except JSError Vector2 := do
  let v ← Vector2.from B
  let v ← chain (v.subtract A)
  let v ← chain (v.multiply fraction)
  chain (v.add A)

/-- `Vector2.distance(A, B)`. -/
def distance (M : MathLib) (A B : Value) : Except JSError Value := do
  assert2DVector A none
  assert2DVector B none
  let dx ← jsSub B.x A.x
  let sx ← jsSq dx
  let dy ← jsSub B.y A.y
  let sy ← jsSq dy
  let s ← jsAdd sx sy
  mathSqrt M s

/-- `Vector2.equals(A, B)`. -/
def equalsStatic (A B : Value) : Except JSError Bool := do
  assert2DVector A none
  assert2DVector B none
  .ok (strictEq A.x B.x && strictEq A.y B.y)

/-- One turn of the loop of `Vector2.min`. -/
def minStep (vec : Vector2) (vector : Value) : Except JSError Vector2 := do
  assert2DVector vector none
  let vec := if ← jsGt vec.x vector.x then { vec with x := vector.x } else vec
  let vec := if ← jsGt vec.y vector.y then { vec with y := vector.y } else vec
  .ok vec

/-- `Vector2.min(A, ...vectors)`. -/
def min (A : Value) (vectors : List Value) : Except JSError Vector2 := do
  assert2DVector A (some "The first argument must be a Vector")
  let vec ← Vector2.from A
  vectors.foldlM minStep vec

/-- One turn of the loop of `Vector2.max`. -/
def maxStep (vec : Vector2) (vector : Value) : Except JSError Vector2 := do
  assert2DVector vector none
  let vec := if ← jsLt vec.x vector.x then { vec with x := vector.x } else vec
  let vec := if ← jsLt vec.y vector.y then { vec with y := vector.y } else vec
  .ok vec

/-- `Vector2.max(A, ...vectors)`. -/
def max (A : Value) (vectors : List Value) : Except JSError Vector2 := do
  assert2DVector A (some "The first argument must be a Vector")
  let vec ← Vector2.from A
  vectors.foldlM maxStep vec

/-- `Vector2.zero()`. -/
def zero : Except JSError Vector2 := constructor (.num 0) (.num 0)

/-- `Vector2.one()`. -/
def one : Except JSError Vector2 := constructor (.num 1) (.num 1)

/-- `Vector2.neg()`. -/
def neg : Except JSError Vector2 := constructor (.num (-1)) (.num (-1))

/-- `Vector2.left()`. -/
def left : Except JSError Vector2 := constructor (.num (-1)) (.num 0)

/-- `Vector2.forward()`. -/
def forward : Except JSError Vector2 := constructor (.num 0) (.num (-1))

/-- `Vector2.right()`. -/
def right : Except JSError Vector2 := constructor (.num 1) (.num 0)

/-- `Vector2.back()`. -/
def back : Except JSError Vector2 := constructor (.num 0) (.num 1)

end Vector2

/-! ## `vector3.js` -/

/-- The state of a `Vector3`: its three own properties. -/
structure Vector3 where
  x : Value
  y : Value
  z : Value

namespace Vector3

/-- The instance as an operand of another call. -/
def toValue (self : Vector3) : Value := .vector3 self.x self.y self.z

/-- `ok(x, y, z)` of `vector3.js`. -/
def ok (x y z : Value) : Bool := isNumber x && isNumber y && isNumber z

/-- `undef(x, y, z)` of `vector3.js`:
`isUndefined(x) && isUndefined(y) && isUndefined(z)`. -/
def undef (x y z : Value) : Except JSError Bool := do
  if !(← isUndefined x) then return false
  if !(← isUndefined y) then return false
  isUndefined z

/-- `new Vector3(x, y, z)`; `undef` is called only when `ok` is false. -/
def constructor (x y z : Value) : Except JSError Vector3 := do
  let condition ← if ok x y z then .ok true else undef x y z
  assert condition (some "arguments X, Y and Z must be a numbers")
  .ok { x := jsOr x (.num 0), y := jsOr y (.num 0), z := jsOr z (.num 0) }

/-- The assignment `this.x = value`. -/
def assignX (value : Value) : Method Vector3 Unit :=
  Method.modify fun self => { self with x := value }

/-- The assignment `this.y = value`. -/
def assignY (value : Value) : Method Vector3 Unit :=
  Method.modify fun self => { self with y := value }

/-- The assignment `this.z = value`. -/
def assignZ (value : Value) : Method Vector3 Unit :=
  Method.modify fun self => { self with z := value }

/-- The compound assignment `this.x op= value`. -/
def compoundX (op : Value → Value → Except JSError Value) (value : Value) :
    Method Vector3 Unit := do
  let r ← Method.read fun self => op self.x value
  assignX r

/-- The compound assignment `this.y op= value`. -/
def compoundY (op : Value → Value → Except JSError Value) (value : Value) :
    Method Vector3 Unit := do
  let r ← Method.read fun self => op self.y value
  assignY r

/-- The compound assignment `this.z op= value`. -/
def compoundZ (op : Value → Value → Except JSError Value) (value : Value) :
    Method Vector3 Unit := do
  let r ← Method.read fun self => op self.z value
  assignZ r

/-- `set(value)`. -/
def set (self : Vector3) (value : Value) : Outcome Vector3 Returned :=
  Method.run self do
    if is3DVectorLike value then
      assignX value.x
      assignY value.y
      assignZ value.z
    assignZ (jsOr value (.num 0))
    assignY (jsOr value (.num 0))
    assignX (jsOr value (.num 0))
    return .receiver

/-- `add(value)`. -/
def add (self : Vector3) (value : Value) : Outcome Vector3 Returned :=
  Method.run self do
    if is3DVectorLike value then
      compoundX jsAdd value.x
      compoundY jsAdd value.y
      compoundZ jsAdd value.z
    compoundX jsAdd (jsOr value (.num 0))
    compoundY jsAdd (jsOr value (.num 0))
    compoundZ jsAdd (jsOr value (.num 0))
    return .receiver

/-- `subtract(value)`. -/
def subtract (self : Vector3) (value : Value) : Outcome Vector3 Returned :=
  Method.run self do
    if is3DVectorLike value then
      compoundX jsSub value.x
      compoundY jsSub value.y
      compoundZ jsSub value.z
    compoundX jsSub (jsOr value (.num 0))
    compoundY jsSub (jsOr value (.num 0))
    compoundZ jsSub (jsOr value (.num 0))
    return .receiver

/-- `multiply(value)`. -/
def multiply (self : Vector3) (value : Value) : Outcome Vector3 Returned :=
  Method.run self do
    if is3DVectorLike value then
      compoundX jsMul value.x
      compoundY jsMul value.y
      compoundZ jsMul value.z
    compoundX jsMul (jsOr value (.num 0))
    compoundY jsMul (jsOr value (.num 0))
    compoundZ jsMul (jsOr value (.num 0))
    return .receiver

/-- `divide(value)`. -/
def divide (self : Vector3) (value : Value) : Outcome Vector3 Returned :=
  Method.run self do
    if is3DVectorLike value then
      compoundX jsDiv value.x
      compoundY jsDiv value.y
      compoundZ jsDiv value.z
    Method.lift (assert (!strictEq value (.num 0))
      (some "Vector.divide(); Argument is a `zero` value"))
    compoundX jsDiv (jsOr value (.num 1))
    compoundY jsDiv (jsOr value (.num 1))
    compoundZ jsDiv (jsOr value (.num 1))
    return .receiver

/-- `heading()`. -/
def heading (M : MathLib) (self : Vector3) : Except JSError Value :=
  mathAtan2 M self.y self.x

/-- `magSq()`. -/
def magSq (self : Vector3) : Except JSError Value := do
  let a ← jsSq self.x
  let b ← jsSq self.y
  let ab ← jsAdd a b
  let c ← jsSq self.z
  jsAdd ab c

/-- `mag()`. -/
def mag (M : MathLib) (self : Vector3) : Except JSError Value := do
  let s ← self.magSq
  mathSqrt M s

/-- `magnitude()`. -/
def magnitude (M : MathLib) (self : Vector3) : Except JSError Value := do
  let s ← self.magSq
  mathSqrt M s

/-- `setHeading(radians)`. The body has no `return`. -/
def setHeading (M : MathLib) (self : Vector3) (radians : Value) : Outcome Vector3 Returned :=
  Method.run self do
    let m ← Method.read (mag M)
    let c ← Method.lift (mathCos M radians)
    let nx ← Method.lift (jsMul m c)
    assignX nx
    let s ← Method.lift (mathSin M radians)
    let ny ← Method.lift (jsMul m s)
    assignY ny
    return .undefined

/-- `abs()`. -/
def abs (self : Vector3) : Outcome Vector3 Returned :=
  Method.run self do
    if ← Method.read fun self => jsLt self.x (.num 0) then
      compoundX jsMul (.num (-1))
    if ← Method.read fun self => jsLt self.y (.num 0) then
      compoundY jsMul (.num (-1))
    if ← Method.read fun self => jsLt self.z (.num 0) then
      compoundZ jsMul (.num (-1))
    return .receiver

/-- `dot(vector)`. -/
def dot (self : Vector3) (vector : Value) : Except JSError Value := do
  assert3DVector vector none
  let a ← jsMul self.x vector.x
  let b ← jsMul self.y vector.y
  let ab ← jsAdd a b
  let c ← jsMul self.z vector.z
  jsAdd ab c

/-- `cross(vector)`: three assignments in order, each right-hand side reading
the receiver as it is when that assignment runs. -/
def cross (self : Vector3) (vector : Value) : Outcome Vector3 Returned :=
  Method.run self do
    Method.lift (assert3DVector vector none)
    let nx ← Method.read fun self => do
      let a ← jsMul self.y vector.z
      let b ← jsMul self.z vector.y
      jsSub a b
    assignX nx
    let ny ← Method.read fun self => do
      let a ← jsMul self.z vector.x
      let b ← jsMul self.x vector.z
      jsSub a b
    assignY ny
    let nz ← Method.read fun self => do
      let a ← jsMul self.x vector.y
      let b ← jsMul self.y vector.x
      jsSub a b
    assignZ nz
    return .receiver

/-- `normalize()`. -/
def normalize (M : MathLib) (self : Vector3) : Outcome Vector3 Returned :=
  Method.run self do
    let magnitude ← Method.read (magnitude M)
    if !strictEq magnitude (.num 0) then
      let _ ← Method.invoke fun self => divide self magnitude
    return .receiver

/-- `equals(vector)`. -/
def equals (self : Vector3) (vector : Value) : Except JSError Bool := do
  assert3DVector vector none
  .ok (strictEq self.x vector.x && strictEq self.y vector.y && strictEq self.z vector.z)

/-- `clone()`: `new Vector3(...this)`, the iterator yielding `x`, `y`, `z`. -/
def clone (self : Vector3) : Except JSError Vector3 := constructor self.x self.y self.z

/-- `negative()`. -/
def negative (self : Vector3) : Outcome Vector3 Returned := multiply self (.num (-1))

/-- `norm()`. -/
def norm (M : MathLib) (self : Vector3) : Outcome Vector3 Returned := normalize M self

/-- `isOK()`. -/
def isOK (self : Vector3) : Bool := ok self.x self.y self.z

/-- `toString()`. -/
def toString (self : Vector3) : Except JSError String := do
  let sx ← toStringJS self.x
  let sy ← toStringJS self.y
  let sz ← toStringJS self.z
  .ok ("[Vector3 " ++ sx ++ "," ++ sy ++ "," ++ sz ++ "]")

/-- `toJSON()`. -/
def toJSON (self : Vector3) : Value := .object self.x self.y self.z

/-- `toArray()`. -/
def toArray (self : Vector3) : Value := .array [self.x, self.y, self.z]

end Vector3

/-- `Vector3.from(target)`; the number case passes two arguments. -/
def Vector3.from (target : Value) : Except JSError Vector3 :=
  if is3DVectorLike target then Vector3.constructor target.x target.y target.z
  else if isArray target then
    Vector3.constructor (target.index 0) (target.index 1) (target.index 2)
  else if isNumber target then Vector3.constructor target target .undefined
  else assert.fail "Unexpected type target.Argument must be array or Vector like object."

namespace Vector3

/-- `Vector3.of(x, y, z)`. -/
def of (x y z : Value) : Except JSError Vector3 := do
  assert (isNumber x) (some "X, Y and Z must be a number.")
  let y := if !isNumber y then x else y
  let z := if !isNumber z then x else z
  constructor x y z

/-- `Vector3.dot(A, B)`. -/
def dotStatic (A B : Value) : Except JSError Value := do
  assert3DVector A none
  assert3DVector B none
  let a ← jsMul A.x B.x
  let b ← jsMul A.y B.y
  let ab ← jsAdd a b
  let c ← jsMul A.z B.z
  jsAdd ab c

/-- The value of a call in a chain of calls: see `Vector2.chain`. -/
def chain (call : Outcome Vector3 Returned) : Except JSError Vector3 :=
  match call.result with
  | .ok .receiver => .ok call.state
  | .ok .undefined => .error .typeError
  | .error e => .error e

/-- `Vector3.lerp(A, B, fraction)`. -/
def lerp (A B fraction : Value) : Except JSError Vector3 := do
  let v ← Vector3.from B
  let v ← chain (v.subtract A)
  let v ← chain (v.multiply fraction)
  chain (v.add A)

/-- `Vector3.distance(A, B)`. -/
def distance (M : MathLib) (A B : Value) : Except JSError Value := do
  assert3DVector A none
  assert3DVector B none
  let dx ← jsSub B.x A.x
  let sx ← jsSq dx
  let dy ← jsSub B.y A.y
  let sy ← jsSq dy
  let sxy ← jsAdd sx sy
  let dz ← jsSub B.z A.z
  let sz ← jsSq dz
  let s ← jsAdd sxy sz
  mathSqrt M s

/-- `Vector3.equals(A, B)`. -/
def equalsStatic (A B : Value) : Except JSError Bool := do
  assert3DVector A none
  assert3DVector B none
  .ok (strictEq A.x B.x && strictEq A.y B.y && strictEq A.z B.z)

/-- One turn of the loop of `Vector3.min`. -/
def minStep (minVec : Vector3) (vector : Value) : Except JSError Vector3 := do
  assert3DVector vector none
  let minVec := if ← jsGt minVec.x vector.x then { minVec with x := vector.x } else minVec
  let minVec := if ← jsGt minVec.y vector.y then { minVec with y := vector.y } else minVec
  let minVec := if ← jsGt minVec.z vector.z then { minVec with z := vector.z } else minVec
  .ok minVec

/-- `Vector3.min(...vectors)`; `vectors[0]` of no arguments is `undefined`. -/
def min (vectors : List Value) : Except JSError Vector3 := do
  assert3DVector (vectors.getD 0 .undefined) none
  let minVec ← Vector3.from (vectors.getD 0 .undefined)
  vectors.foldlM minStep minVec

/-- One turn of the loop of `Vector3.max`. -/
def maxStep (maxVec : Vector3) (vector : Value) : Except JSError Vector3 := do
  assert3DVector vector none
  let maxVec := if ← jsLt maxVec.x vector.x then { maxVec with x := vector.x } else maxVec
  let maxVec := if ← jsLt maxVec.y vector.y then { maxVec with y := vector.y } else maxVec
  let maxVec := if ← jsLt maxVec.z vector.z then { maxVec with z := vector.z } else maxVec
  .ok maxVec

/-- `Vector3.max(...vectors)`. -/
def max (vectors : List Value) : Except JSError Vector3 := do
  assert3DVector (vectors.getD 0 .undefined) none
  let maxVec ← Vector3.from (vectors.getD 0 .undefined)
  vectors.foldlM maxStep maxVec

/-- `Vector3.zero()`. -/
def zero : Except JSError Vector3 := constructor (.num 0) (.num 0) (.num 0)

/-- `Vector3.one()`. -/
def one : Except JSError Vector3 := constructor (.num 1) (.num 1) (.num 1)

/-- `Vector3.neg()`. -/
def neg : Except JSError Vector3 := constructor (.num (-1)) (.num (-1)) (.num (-1))

/-- `Vector3.left()`. -/
def left : Except JSError Vector3 := constructor (.num (-1)) (.num 0) (.num 0)

/-- `Vector3.forward()`. -/
def forward : Except JSError Vector3 := constructor (.num 0) (.num (-1)) (.num 0)

/-- `Vector3.right()`. -/
def right : Except JSError Vector3 := constructor (.num 1) (.num 0) (.num 0)

/-- `Vector3.back()`. -/
def back : Except JSError Vector3 := constructor (.num 0) (.num 1) (.num 0)

/-- `Vector3.up()`. -/
def up : Except JSError Vector3 := constructor (.num 0) (.num 0) (.num (-1))

/-- `Vector3.down()`. -/
def down : Except JSError Vector3 := constructor (.num 0) (.num 0) (.num 1)

end Vector3

/-! ## Objects with identity

A vector is an object: `new` makes one that is none of the objects there
already are, and the operand of a call can be the receiver itself. The states
above do not say whose state they are; a store does. -/

/-- A store of the objects of one class: the state of the object at each
address, and the first address that no object has yet. -/
structure Store (σ : Type) where
  objects : Nat → σ
  next : Nat

namespace Store

/-- The state of the object at `address`. -/
def read {σ : Type} (s : Store σ) (address : Nat) : σ := s.objects address

/-- The store after the object at `address` has taken the state `o`. -/
def write {σ : Type} (s : Store σ) (address : Nat) (o : σ) : Store σ :=
  { s with objects := fun b => if b = address then o else s.objects b }

/-- The operator `new`: the object takes the first free address, which is the
value of the expression. -/
def alloc {σ : Type} (s : Store σ) (o : σ) : Store σ × Nat :=
  ({ objects := fun b => if b = s.next then o else s.objects b, next := s.next + 1 }, s.next)

/-- A call `receiver.method(...)` on the object at `address`: the method runs
on that object's state, and what it assigned to `this` is that object's state
afterwards. -/
def call {σ α : Type} (s : Store σ) (address : Nat) (method : σ → Outcome σ α) :
    Store σ × Except JSError α :=
  (s.write address (method (s.read address)).state, (method (s.read address)).result)

end Store

/-- `new Vector2(x, y)` in a store. -/
def Vector2.newIn (s : Store Vector2) (x y : Value) : Except JSError (Store Vector2 × Nat) := do
  let o ← Vector2.constructor x y
  .ok (s.alloc o)

/-- `clone()` of the `Vector2` at `self`: `new Vector2(this.x, this.y)`. -/
def Vector2.cloneIn (s : Store Vector2) (self : Nat) : Except JSError (Store Vector2 × Nat) :=
  Vector2.newIn s (s.read self).x (s.read self).y

/-- `new Vector3(x, y, z)` in a store. -/
def Vector3.newIn (s : Store Vector3) (x y z : Value) :
    Except JSError (Store Vector3 × Nat) := do
  let o ← Vector3.constructor x y z
  .ok (s.alloc o)

/-- `clone()` of the `Vector3` at `self`: `new Vector3(...this)`. -/
def Vector3.cloneIn (s : Store Vector3) (self : Nat) : Except JSError (Store Vector3 × Nat) :=
  Vector3.newIn s (s.read self).x (s.read self).y (s.read self).z

/-- What a property of a `Vector2` of the store holds, and what a call is
given: a value as above (a primitive, or an object that is none of the store's
vectors), or the store's vector at an address. -/
inductive Slot where
  | value (v : Value)
  | vector (address : Nat)

/-- The state of a `Vector2` whose properties may hold vectors of the store,
itself included. -/
structure LiveVector2 where
  x : Slot
  y : Slot

namespace Slot

/-- Reading the property `x`: of a vector of the store, what it holds now. -/
def x (s : Store LiveVector2) : Slot → Slot
  | .value v => .value v.x
  | .vector a => (s.read a).x

/-- Reading the property `y`. -/
def y (s : Store LiveVector2) : Slot → Slot
  | .value v => .value v.y
  | .vector a => (s.read a).y

/-- `isDefined(value)`. -/
def isDefined : Slot → Bool
  | .value v => VectorLib.isDefined v
  | .vector _ => true

/-- `isNumber(value)`. -/
def isNumber : Slot → Bool
  | .value v => VectorLib.isNumber v
  | .vector _ => false

/-- `ToBoolean(value)`. -/
def truthy : Slot → Bool
  | .value v => VectorLib.truthy v
  | .vector _ => true

/-- The operator `a || b`. -/
def jsOr (a b : Slot) : Slot := if a.truthy then a else b

/-- The operator `a === b`: two vectors of the store are the same when their
addresses are. -/
def strictEq : Slot → Slot → Bool
  | .value a, .value b => VectorLib.strictEq a b
  | .vector a, .vector b => a == b
  | _, _ => false

end Slot

namespace LiveVector2

/-- `is2DVectorLike(value)`, reading the operand as it is in the store. -/
def is2DVectorLike (s : Store LiveVector2) (value : Slot) : Bool :=
  value.isDefined && (value.x s).isNumber && (value.y s).isNumber

/-- The assignment `this.x = value`. -/
def assignX (self : Nat) (value : Slot) (s : Store LiveVector2) : Store LiveVector2 :=
  s.write self { s.read self with x := value }

/-- The assignment `this.y = value`. -/
def assignY (self : Nat) (value : Slot) (s : Store LiveVector2) : Store LiveVector2 :=
  s.write self { s.read self with y := value }

/-- `set(value)` on the vector at `self`, statement by statement; each read of
the operand is a read of the store at that point. -/
def set (s : Store LiveVector2) (self : Nat) (value : Slot) : Store LiveVector2 × Returned :=
  let s1 := if is2DVectorLike s value then
      let sx := assignX self (value.x s) s
      assignY self (value.y sx) sx
    else s
  let s2 := assignY self (value.jsOr (.value (.num 0))) s1
  let s3 := assignX self (value.jsOr (.value (.num 0))) s2
  (s3, .receiver)

/-- `isOK()` on the vector at `self`. -/
def isOK (s : Store LiveVector2) (self : Nat) : Bool :=
  (s.read self).x.isNumber && (s.read self).y.isNumber

/-- `equals(vector)` on the vector at `self`. -/
def equals (s : Store LiveVector2) (self : Nat) (vector : Slot) : Except JSError Bool := do
  assert (is2DVectorLike s vector)
    (some (messageOr none "The argument must be a Vector like object \x7bx, y\x7d."))
  .ok (Slot.strictEq (s.read self).x (vector.x s) && Slot.strictEq (s.read self).y (vector.y s))

end LiveVector2

/-! ## Evaluation lemmas

How the monads and the operators compute, stated once for the proofs below. -/

@[simp] theorem except_ok_bind {ε α β : Type} (a : α) (f : α → Except ε β) :
    (Except.ok a >>= f) = f a := rfl

@[simp] theorem except_error_bind {ε α β : Type} (e : ε) (f : α → Except ε β) :
    ((Except.error e : Except ε α) >>= f) = Except.error e := rfl

@[simp] theorem except_pure {ε α : Type} (a : α) : (Pure.pure a : Except ε α) = Except.ok a := rfl

namespace Method

@[simp] theorem run_eq {σ α : Type} (s : σ) (m : Method σ α) : Method.run s m = m s := rfl

@[simp] theorem pure_apply {σ α : Type} (a : α) (s : σ) :
    (Pure.pure a : Method σ α) s = ⟨s, .ok a⟩ := rfl

@[simp] theorem bind_apply {σ α β : Type} (m : Method σ α) (f : α → Method σ β) (s : σ) :
    (m >>= f) s = match m s with
      | ⟨s1, .ok a⟩ => f a s1
      | ⟨s1, .error e⟩ => ⟨s1, .error e⟩ := rfl

@[simp] theorem read_apply {σ α : Type} (f : σ → Except JSError α) (s : σ) :
    Method.read f s = ⟨s, f s⟩ := rfl

@[simp] theorem lift_apply {σ α : Type} (e : Except JSError α) (s : σ) :
    (Method.lift e : Method σ α) s = ⟨s, e⟩ := rfl

@[simp] theorem modify_apply {σ : Type} (f : σ → σ) (s : σ) :
    Method.modify f s = ⟨f s, .ok ()⟩ := rfl

@[simp] theorem invoke_apply {σ α : Type} (f : σ → Outcome σ α) (s : σ) :
    Method.invoke f s = f s := rfl

@[simp] theorem ite_apply {σ α : Type} (c : Prop) [Decidable c] (a b : Method σ α) (s : σ) :
    (if c then a else b) s = if c then a s else b s := by
  split <;> rfl

end Method

@[simp] theorem toPrimitive_number (n : JSNumber) :
    toPrimitive (.number n) = .ok (.number n) := rfl

@[simp] theorem toNumber_number (n : JSNumber) : toNumber (.number n) = .ok n := rfl

@[simp] theorem toNumber_undefined : toNumber .undefined = .ok .nan := rfl

@[simp] theorem toNumber_null : toNumber .null = .ok (.fin 0) := rfl

@[simp] theorem toPrimitive_object (x y z : Value) :
    toPrimitive (.object x y z) = .ok (.string "[object Object]") := by
  simp [toPrimitive, Value.isObject, toStringJS]

@[simp] theorem toPrimitive_vector2 (x y : Value) :
    toPrimitive (.vector2 x y) = .error .referenceError := by
  simp [toPrimitive, Value.isObject, toStringJS]

@[simp] theorem toNumber_object (x y z : Value) : toNumber (.object x y z) = .ok .nan := by
  simp only [toNumber, toPrimitive_object, except_ok_bind]
  rfl

@[simp] theorem toNumber_vector2 (x y : Value) :
    toNumber (.vector2 x y) = .error .referenceError := by
  simp only [toNumber, toPrimitive_vector2, except_error_bind]

@[simp] theorem jsAdd_number (a b : JSNumber) :
    jsAdd (.number a) (.number b) = .ok (.number (a.add b)) := rfl

@[simp] theorem jsSub_number (a b : JSNumber) :
    jsSub (.number a) (.number b) = .ok (.number (a.sub b)) := rfl

@[simp] theorem jsMul_number (a b : JSNumber) :
    jsMul (.number a) (.number b) = .ok (.number (a.mul b)) := rfl

@[simp] theorem jsDiv_number (a b : JSNumber) :
    jsDiv (.number a) (.number b) = .ok (.number (a.div b)) := rfl

@[simp] theorem jsSq_number (a : JSNumber) : jsSq (.number a) = .ok (.number a.sq) := rfl

@[simp] theorem jsLt_number (a b : JSNumber) :
    jsLt (.number a) (.number b) = .ok (a.lt b) := rfl

@[simp] theorem jsGt_number (a b : JSNumber) :
    jsGt (.number a) (.number b) = .ok (b.lt a) := rfl

@[simp] theorem number_add_fin (a b : ℚ) : (JSNumber.fin a).add (.fin b) = .fin (a + b) := rfl

@[simp] theorem number_sub_fin (a b : ℚ) : (JSNumber.fin a).sub (.fin b) = .fin (a - b) := by
  simp [JSNumber.sub, JSNumber.neg, sub_eq_add_neg]

@[simp] theorem number_mul_fin (a b : ℚ) : (JSNumber.fin a).mul (.fin b) = .fin (a * b) := rfl

theorem number_div_fin (a b : ℚ) (h : b ≠ 0) : (JSNumber.fin a).div (.fin b) = .fin (a / b) := by
  simp [JSNumber.div, h]

namespace Vector2

@[simp] theorem assignX_apply (v : Value) (s : Vector2) :
    assignX v s = ⟨{ s with x := v }, .ok ()⟩ := rfl

@[simp] theorem assignY_apply (v : Value) (s : Vector2) :
    assignY v s = ⟨{ s with y := v }, .ok ()⟩ := rfl

@[simp] theorem compoundX_apply (op : Value → Value → Except JSError Value) (v : Value)
    (s : Vector2) :
    compoundX op v s = match op s.x v with
      | .ok r => ⟨{ s with x := r }, .ok ()⟩
      | .error e => ⟨s, .error e⟩ := by
  unfold compoundX
  rw [Method.bind_apply]
  simp only [Method.read_apply]
  cases op s.x v <;> rfl

@[simp] theorem compoundY_apply (op : Value → Value → Except JSError Value) (v : Value)
    (s : Vector2) :
    compoundY op v s = match op s.y v with
      | .ok r => ⟨{ s with y := r }, .ok ()⟩
      | .error e => ⟨s, .error e⟩ := by
  unfold compoundY
  rw [Method.bind_apply]
  simp only [Method.read_apply]
  cases op s.y v <;> rfl

end Vector2

namespace Vector3

@[simp] theorem assignX3_apply (v : Value) (s : Vector3) :
    assignX v s = ⟨{ s with x := v }, .ok ()⟩ := rfl

@[simp] theorem assignY3_apply (v : Value) (s : Vector3) :
    assignY v s = ⟨{ s with y := v }, .ok ()⟩ := rfl

@[simp] theorem assignZ_apply (v : Value) (s : Vector3) :
    assignZ v s = ⟨{ s with z := v }, .ok ()⟩ := rfl

@[simp] theorem compoundX3_apply (op : Value → Value → Except JSError Value) (v : Value)
    (s : Vector3) :
    compoundX op v s = match op s.x v with
      | .ok r => ⟨{ s with x := r }, .ok ()⟩
      | .error e => ⟨s, .error e⟩ := by
  unfold compoundX
  rw [Method.bind_apply]
  simp only [Method.read_apply]
  cases op s.x v <;> rfl

@[simp] theorem compoundY3_apply (op : Value → Value → Except JSError Value) (v : Value)
    (s : Vector3) :
    compoundY op v s = match op s.y v with
      | .ok r => ⟨{ s with y := r }, .ok ()⟩
      | .error e => ⟨s, .error e⟩ := by
  unfold compoundY
  rw [Method.bind_apply]
  simp only [Method.read_apply]
  cases op s.y v <;> rfl

@[simp] theorem compoundZ_apply (op : Value → Value → Except JSError Value) (v : Value)
    (s : Vector3) :
    compoundZ op v s = match op s.z v with
      | .ok r => ⟨{ s with z := r }, .ok ()⟩
      | .error e => ⟨s, .error e⟩ := by
  unfold compoundZ
  rw [Method.bind_apply]
  simp only [Method.read_apply]
  cases op s.z v <;> rfl

end Vector3

/-! ## C1: `Vector3.cross` -/

/-- What `cross` computes on finite components against a 3D vector-like
operand: `x` from the receiver before the call, `y` from the new `x`, and `z`
from the new `x` and the new `y`. -/
theorem Vector3.cross_computes (a b c p q r : ℚ) (w : Value)
    (hx : w.x = .num p) (hy : w.y = .num q) (hz : w.z = .num r) (hw : isDefined w = true) :
    Vector3.cross ⟨.num a, .num b, .num c⟩ w =
      ⟨⟨.num (b * r - c * q),
        .num (c * p - (b * r - c * q) * r),
        .num ((b * r - c * q) * q - (c * p - (b * r - c * q) * r) * p)⟩,
       .ok .receiver⟩ := by
  simp [Vector3.cross, assert3DVector, assert, is3DVectorLike, isNumber, hx, hy, hz, hw,
    Value.num]

/-- C1 (code defect): on `v = (1,0,0)` and `w = {x: 0, y: 1, z: 0}` the call
`v.cross(w)` returns `v` with components `(0,0,0)`; the cross product computed
from the components before the call is `(0,0,1)`. The third assignment reads
the `x` and `y` the first two have already overwritten. -/
theorem C1_cross_reads_updated_components :
    Vector3.cross ⟨.num 1, .num 0, .num 0⟩ (.object (.num 0) (.num 1) (.num 0)) =
        ⟨⟨.num 0, .num 0, .num 0⟩, .ok .receiver⟩ ∧
      (⟨.num 0, .num 0, .num 0⟩ : Vector3) ≠
        ⟨.num (0 * 0 - 0 * 1), .num (0 * 0 - 1 * 0), .num (1 * 1 - 0 * 0)⟩ := by
  constructor
  · rw [Vector3.cross_computes 1 0 0 0 1 0 (.object (.num 0) (.num 1) (.num 0)) rfl rfl rfl rfl]
    norm_num
  · simp [Value.num]

/-! ## C2, C3: `Vector2.lerp` -/

@[simp] theorem jsSub_number_object (a : JSNumber) (x y z : Value) :
    jsSub (.number a) (.object x y z) = .ok (.number .nan) := by
  cases a <;> simp [jsSub, numericOp] <;> rfl

@[simp] theorem jsSub_number_vector2 (a : JSNumber) (x y : Value) :
    jsSub (.number a) (.vector2 x y) = .error .referenceError := by
  simp [jsSub, numericOp]

@[simp] theorem jsAdd_nan_object (x y z : Value) :
    jsAdd (.number .nan) (.object x y z) = .ok (.string "NaN[object Object]") := by
  simp [jsAdd, toStringJS, JSNumber.toJSString]

@[simp] theorem number_nan_mul (b : JSNumber) : JSNumber.nan.mul b = .nan := by
  cases b <;> rfl

@[simp] theorem number_nan_add (b : JSNumber) : JSNumber.nan.add b = .nan := by
  cases b <;> rfl

/-- What `lerp` returns on two plain objects with finite `x` and `y` and a
finite fraction: in `subtract(A)` the statement after the component-wise
branch subtracts the object `A` itself, which is `NaN` as a number, and in
`add(A)` the same statement appends `A` as a string. -/
theorem Vector2.lerp_plain_objects (a b c d t : ℚ) (za zb : Value) :
    Vector2.lerp (.object (.num a) (.num b) za) (.object (.num c) (.num d) zb) (.num t) =
      .ok ⟨.string "NaN[object Object]", .string "NaN[object Object]"⟩ := by
  by_cases hc : c = 0 <;> by_cases hd : d = 0 <;> by_cases ht : t = 0 <;>
    simp [Vector2.lerp, Vector2.from, Vector2.constructor, Vector2.ok, Vector2.undef, assert,
      Vector2.chain, Vector2.add, Vector2.subtract, Vector2.multiply, is2DVectorLike, isDefined,
      isNumber, isEmpty, Value.x, Value.y, Value.num, jsOr, truthy, hc, hd, ht]

/-- C2 (code defect): `Vector2.lerp({x: 0, y: 0}, {x: 2, y: 4}, 1/2)` returns a
vector whose two components are the string `"NaN[object Object]"`, not the
numbers `0 + (2 - 0) * 1/2` and `0 + (4 - 0) * 1/2`. -/
theorem C2_lerp_on_plain_objects :
    Vector2.lerp (.object (.num 0) (.num 0) .undefined) (.object (.num 2) (.num 4) .undefined)
        (.num (1 / 2)) =
        .ok ⟨.string "NaN[object Object]", .string "NaN[object Object]"⟩ ∧
      (⟨.string "NaN[object Object]", .string "NaN[object Object]"⟩ : Vector2) ≠
        ⟨.num (0 + (2 - 0) * (1 / 2)), .num (0 + (4 - 0) * (1 / 2))⟩ := by
  constructor
  · exact Vector2.lerp_plain_objects 0 0 2 4 (1 / 2) .undefined .undefined
  · simp [Value.num]

/-- What `lerp` does when `A` is an instance of `Vector2`: `subtract(A)`
subtracts the instance itself after the component-wise branch, which converts
it with its `toString()`, and that throws. -/
theorem Vector2.lerp_vector2_instances (a b c d : ℚ) (fraction : Value) :
    Vector2.lerp (.vector2 (.num a) (.num b)) (.vector2 (.num c) (.num d)) fraction =
      .error .referenceError := by
  by_cases hc : c = 0 <;> by_cases hd : d = 0 <;>
    simp [Vector2.lerp, Vector2.from, Vector2.constructor, Vector2.ok, Vector2.undef, assert,
      Vector2.chain, Vector2.subtract, is2DVectorLike, isDefined,
      isNumber, isEmpty, Value.x, Value.y, Value.num, jsOr, truthy, hc, hd]

/-- C3 (code defect): for the valid vectors `A = Vector2(0,0)` and
`B = Vector2(1,1)`, `Vector2.lerp(A,B,0).equals(A)` and
`Vector2.lerp(A,B,1).equals(B)` both throw a `ReferenceError` inside `lerp`;
neither evaluates to `true`. -/
theorem C3_lerp_endpoints_throw :
    (Vector2.lerp (.vector2 (.num 0) (.num 0)) (.vector2 (.num 1) (.num 1)) (.num 0) >>=
        fun v => v.equals (.vector2 (.num 0) (.num 0))) = .error .referenceError ∧
      (Vector2.lerp (.vector2 (.num 0) (.num 0)) (.vector2 (.num 1) (.num 1)) (.num 1) >>=
        fun v => v.equals (.vector2 (.num 1) (.num 1))) = .error .referenceError := by
  simp [Vector2.lerp_vector2_instances]

/-! ## C4, C5: the constructors -/

/-- `x || 0` on a finite number is that number (for `0` it is the `0` on the
right). -/
@[simp] theorem jsOr_num_zero (a : ℚ) : jsOr (.num a) (.num 0) = .num a := by
  by_cases h : a = 0 <;> simp [jsOr, truthy, Value.num, h]

@[simp] theorem jsOr_of_isEmpty (x d : Value) (h : isEmpty x = true) : jsOr x d = d := by
  cases x <;> simp_all [jsOr, truthy, isEmpty]

theorem isNumber_iff (x : Value) : isNumber x = true ↔ ∃ a : ℚ, x = .num a := by
  constructor
  · intro h
    cases x with
    | number n => cases n <;> simp_all [isNumber, Value.num]
    | _ => simp [isNumber] at h
  · rintro ⟨a, rfl⟩
    rfl

theorem Vector2.constructor_num (a b : ℚ) :
    Vector2.constructor (.num a) (.num b) = .ok ⟨.num a, .num b⟩ := by
  simp [Vector2.constructor, Vector2.ok, assert, isNumber, Value.num.eq_1 a, Value.num.eq_1 b]
  constructor
  · exact jsOr_num_zero a
  · exact jsOr_num_zero b

theorem Vector2.constructor_empty (x y : Value) (hx : isEmpty x = true) (hy : isEmpty y = true) :
    Vector2.constructor x y = .ok ⟨.num 0, .num 0⟩ := by
  simp [Vector2.constructor, Vector2.undef, assert, hx, hy]

theorem Vector2.constructor_reject (x y : Value)
    (h : (Vector2.ok x y || Vector2.undef x y) = false) :
    Vector2.constructor x y = .error (.error "x and y must be a number.") := by
  simp only [Vector2.constructor, h, assert]
  rfl

/-- C4: `new Vector2(x, y)` succeeds exactly when `x` and `y` are both finite
numbers or both absent (`null` or `undefined`), and otherwise throws the
assertion's error; with finite numbers the components are those numbers; with
both absent they are `(0,0)`, the vector `equals` `Vector2(0,0)`; one finite
number with one absent argument throws either way round, and so does an
argument that is neither a finite number nor absent; and `isOK()` is true of
every vector the constructor returns. -/
theorem C4_Vector2_constructor (x y : Value) (a b : ℚ) :
    ((∃ v, Vector2.constructor x y = .ok v) ↔
        (isNumber x = true ∧ isNumber y = true) ∨ (isEmpty x = true ∧ isEmpty y = true)) ∧
      ((∀ v, Vector2.constructor x y ≠ .ok v) →
        Vector2.constructor x y = .error (.error "x and y must be a number.")) ∧
      Vector2.constructor (.num a) (.num b) = .ok ⟨.num a, .num b⟩ ∧
      (isEmpty x = true → isEmpty y = true →
        Vector2.constructor x y = .ok ⟨.num 0, .num 0⟩ ∧
        Vector2.constructor (.num 0) (.num 0) = .ok ⟨.num 0, .num 0⟩ ∧
        Vector2.equals ⟨.num 0, .num 0⟩ (Vector2.toValue ⟨.num 0, .num 0⟩) = .ok true) ∧
      (isEmpty y = true →
        Vector2.constructor (.num a) y = .error (.error "x and y must be a number.") ∧
        Vector2.constructor y (.num a) = .error (.error "x and y must be a number.")) ∧
      (isNumber x = false → isEmpty x = false →
        Vector2.constructor x y = .error (.error "x and y must be a number.") ∧
        Vector2.constructor y x = .error (.error "x and y must be a number.")) ∧
      (∀ v, Vector2.constructor x y = .ok v → v.isOK = true) := by
  have hsplit : (Vector2.ok x y || Vector2.undef x y) = true ∨
      (Vector2.ok x y || Vector2.undef x y) = false := by
    cases (Vector2.ok x y || Vector2.undef x y) <;> simp
  refine ⟨?_, ?_, Vector2.constructor_num a b, ?_, ?_, ?_, ?_⟩
  · rcases hsplit with h | h
    · have h2 : (isNumber x = true ∧ isNumber y = true) ∨
          (isEmpty x = true ∧ isEmpty y = true) := by
        simpa [Vector2.ok, Vector2.undef] using h
      simp only [h2, iff_true]
      rcases h2 with ⟨hx, hy⟩ | ⟨hx, hy⟩
      · obtain ⟨p, rfl⟩ := (isNumber_iff x).1 hx
        obtain ⟨q, rfl⟩ := (isNumber_iff y).1 hy
        exact ⟨_, Vector2.constructor_num p q⟩
      · exact ⟨_, Vector2.constructor_empty x y hx hy⟩
    · have h2 : ¬ ((isNumber x = true ∧ isNumber y = true) ∨
          (isEmpty x = true ∧ isEmpty y = true)) := by
        intro h3
        have : (Vector2.ok x y || Vector2.undef x y) = true := by
          simpa [Vector2.ok, Vector2.undef] using h3
        rw [h] at this
        exact Bool.noConfusion this
      simp only [h2, iff_false]
      rintro ⟨v, hv⟩
      rw [Vector2.constructor_reject x y h] at hv
      exact Except.noConfusion hv
  · intro hno
    rcases hsplit with h | h
    · exfalso
      have h2 : (isNumber x = true ∧ isNumber y = true) ∨
          (isEmpty x = true ∧ isEmpty y = true) := by
        simpa [Vector2.ok, Vector2.undef] using h
      rcases h2 with ⟨hx, hy⟩ | ⟨hx, hy⟩
      · obtain ⟨p, rfl⟩ := (isNumber_iff x).1 hx
        obtain ⟨q, rfl⟩ := (isNumber_iff y).1 hy
        exact hno _ (Vector2.constructor_num p q)
      · exact hno _ (Vector2.constructor_empty x y hx hy)
    · exact Vector2.constructor_reject x y h
  · intro hx hy
    refine ⟨Vector2.constructor_empty x y hx hy, Vector2.constructor_num 0 0, ?_⟩
    simp [Vector2.equals, assert2DVector, assert, is2DVectorLike, isDefined, isNumber,
      Vector2.toValue, Value.x, Value.y, Value.num, strictEq, JSNumber.strictEq]
  · intro hy
    constructor
    · apply Vector2.constructor_reject
      cases y <;> simp_all [Vector2.ok, Vector2.undef, isEmpty, isNumber, Value.num]
    · apply Vector2.constructor_reject
      cases y <;> simp_all [Vector2.ok, Vector2.undef, isEmpty, isNumber, Value.num]
  · intro hx hx2
    constructor
    · apply Vector2.constructor_reject
      simp [Vector2.ok, Vector2.undef, hx, hx2]
    · apply Vector2.constructor_reject
      simp [Vector2.ok, Vector2.undef, hx, hx2]
  · intro v hv
    rcases hsplit with h | h
    · have h2 : (isNumber x = true ∧ isNumber y = true) ∨
          (isEmpty x = true ∧ isEmpty y = true) := by
        simpa [Vector2.ok, Vector2.undef] using h
      rcases h2 with ⟨hx, hy⟩ | ⟨hx, hy⟩
      · obtain ⟨p, rfl⟩ := (isNumber_iff x).1 hx
        obtain ⟨q, rfl⟩ := (isNumber_iff y).1 hy
        rw [Vector2.constructor_num p q] at hv
        cases hv
        rfl
      · rw [Vector2.constructor_empty x y hx hy] at hv
        cases hv
        rfl
    · rw [Vector2.constructor_reject x y h] at hv
      exact Except.noConfusion hv

/-- C5 (code defect): `new Vector3()` throws. `ok` is false for three absent
arguments, so the constructor calls `undef`, whose first step calls
`isUndefined`, a name `utils/types.js` does not export. Three finite numbers
never reach that call and give `(x, y, z)`; every other argument list reaches
it and throws as well. -/
theorem C5_Vector3_constructor_without_arguments (x y z : Value) (a b c : ℚ) :
    Vector3.constructor .undefined .undefined .undefined = .error .typeError ∧
      Vector3.constructor (.num a) (.num b) (.num c) = .ok ⟨.num a, .num b, .num c⟩ ∧
      (Vector3.ok x y z = false → Vector3.constructor x y z = .error .typeError) := by
  refine ⟨?_, ?_, ?_⟩
  · simp [Vector3.constructor, Vector3.ok, Vector3.undef, isUndefined, isNumber]
  · simp [Vector3.constructor, Vector3.ok, assert, isNumber, Value.num.eq_1 a,
      Value.num.eq_1 b, Value.num.eq_1 c]
    exact ⟨jsOr_num_zero a, jsOr_num_zero b, jsOr_num_zero c⟩
  · intro h
    simp [Vector3.constructor, Vector3.undef, isUndefined, h]

/-! ## C6, C7, C8: scalar operands -/

/-- C6: on a vector with finite components, `divide(0)` throws the assertion's
error and leaves every component as it was, for `Vector2` and for `Vector3`;
and a scalar operand `s` other than `0` (a number, finite or not, a boolean,
`null` or `undefined`) does not make `divide` throw: the call returns the
receiver. -/
theorem C6_divide_throws_on_zero_only (x y z : ℚ) (s : Value)
    (hs : s.isObject = false) (hstr : ∀ t, s ≠ .string t) :
    Vector2.divide ⟨.num x, .num y⟩ (.num 0) =
        ⟨⟨.num x, .num y⟩, .error (.error "Vector.divide(); Argument is a `zero` value")⟩ ∧
      Vector3.divide ⟨.num x, .num y, .num z⟩ (.num 0) =
        ⟨⟨.num x, .num y, .num z⟩,
          .error (.error "Vector.divide(); Argument is a `zero` value")⟩ ∧
      (s ≠ .num 0 →
        (Vector2.divide ⟨.num x, .num y⟩ s).result = .ok .receiver ∧
        (Vector3.divide ⟨.num x, .num y, .num z⟩ s).result = .ok .receiver) := by
  refine ⟨?_, ?_, ?_⟩
  · simp [Vector2.divide, is2DVectorLike, isDefined, isNumber, Value.x, Value.y, Value.num,
      strictEq, JSNumber.strictEq, assert, messageOr]
    rfl
  · simp [Vector3.divide, is3DVectorLike, isDefined, isNumber, Value.x, Value.y, Value.z,
      Value.num, strictEq, JSNumber.strictEq, assert, messageOr]
    rfl
  · intro h0
    cases s with
    | undefined =>
      simp [Vector2.divide, Vector3.divide, is2DVectorLike, is3DVectorLike, isDefined,
        Value.num, strictEq, assert, jsOr, truthy]
    | null =>
      simp [Vector2.divide, Vector3.divide, is2DVectorLike, is3DVectorLike, isDefined,
        Value.num, strictEq, assert, jsOr, truthy]
    | boolean b =>
      cases b <;>
        simp [Vector2.divide, Vector3.divide, is2DVectorLike, is3DVectorLike, isDefined,
          isNumber, Value.x, Value.y, Value.z, Value.num, strictEq, assert, jsOr, truthy,
          jsDiv, numericOp, toNumber, toPrimitive, Value.isObject]
    | number n =>
      cases n with
      | fin q =>
        have hq : q ≠ 0 := by
          intro h
          exact h0 (by rw [h]; rfl)
        simp [Vector2.divide, Vector3.divide, is2DVectorLike, is3DVectorLike, isDefined,
          isNumber, Value.x, Value.y, Value.z, Value.num, strictEq, JSNumber.strictEq, assert,
          jsOr, truthy, hq]
      | nan =>
        simp [Vector2.divide, Vector3.divide, is2DVectorLike, is3DVectorLike, isDefined,
          isNumber, Value.x, Value.y, Value.z, Value.num, strictEq, JSNumber.strictEq, assert,
          jsOr, truthy]
      | posInf =>
        simp [Vector2.divide, Vector3.divide, is2DVectorLike, is3DVectorLike, isDefined,
          isNumber, Value.x, Value.y, Value.z, Value.num, strictEq, JSNumber.strictEq, assert,
          jsOr, truthy]
      | negInf =>
        simp [Vector2.divide, Vector3.divide, is2DVectorLike, is3DVectorLike, isDefined,
          isNumber, Value.x, Value.y, Value.z, Value.num, strictEq, JSNumber.strictEq, assert,
          jsOr, truthy]
    | string t => exact absurd rfl (hstr t)
    | object a b c => simp [Value.isObject] at hs
    | vector2 a b => simp [Value.isObject] at hs
    | vector3 a b c => simp [Value.isObject] at hs
    | array items => simp [Value.isObject] at hs

/-- C6 at `v = (1,2)`, `(1,2,3)` and the scalar `2`. -/
theorem C6_divide_throws_on_zero_only_witness :
    Vector2.divide ⟨.num 1, .num 2⟩ (.num 0) =
        ⟨⟨.num 1, .num 2⟩, .error (.error "Vector.divide(); Argument is a `zero` value")⟩ ∧
      Vector3.divide ⟨.num 1, .num 2, .num 3⟩ (.num 0) =
        ⟨⟨.num 1, .num 2, .num 3⟩,
          .error (.error "Vector.divide(); Argument is a `zero` value")⟩ ∧
      (Value.num 2 ≠ .num 0 →
        (Vector2.divide ⟨.num 1, .num 2⟩ (.num 2)).result = .ok .receiver ∧
        (Vector3.divide ⟨.num 1, .num 2, .num 3⟩ (.num 2)).result = .ok .receiver) :=
  C6_divide_throws_on_zero_only 1 2 3 (.num 2) rfl (fun _ h => Value.noConfusion h)

/-- C7: on a vector `(x, y)` with finite components, a finite scalar `s` other
than `0` is applied to both components, and each call returns the receiver:
`set(s)` leaves `(s, s)`, `add(s)` leaves `(x + s, y + s)`, `subtract(s)` leaves
`(x - s, y - s)`, `multiply(s)` leaves `(x * s, y * s)` and `divide(s)` leaves
`(x / s, y / s)`. -/
theorem C7_scalar_is_broadcast (x y s : ℚ) (hs : s ≠ 0) :
    Vector2.set ⟨.num x, .num y⟩ (.num s) = ⟨⟨.num s, .num s⟩, .ok .receiver⟩ ∧
      Vector2.add ⟨.num x, .num y⟩ (.num s) = ⟨⟨.num (x + s), .num (y + s)⟩, .ok .receiver⟩ ∧
      Vector2.subtract ⟨.num x, .num y⟩ (.num s) =
        ⟨⟨.num (x - s), .num (y - s)⟩, .ok .receiver⟩ ∧
      Vector2.multiply ⟨.num x, .num y⟩ (.num s) =
        ⟨⟨.num (x * s), .num (y * s)⟩, .ok .receiver⟩ ∧
      Vector2.divide ⟨.num x, .num y⟩ (.num s) =
        ⟨⟨.num (x / s), .num (y / s)⟩, .ok .receiver⟩ := by
  refine ⟨?_, ?_, ?_, ?_, ?_⟩ <;>
    simp [Vector2.set, Vector2.add, Vector2.subtract, Vector2.multiply, Vector2.divide,
      is2DVectorLike, isDefined, isNumber, Value.x, Value.y, Value.num, strictEq,
      JSNumber.strictEq, assert, jsOr, truthy, hs, number_div_fin]

/-- C7 at `v = (6, 9)` and `s = 3`. -/
theorem C7_scalar_is_broadcast_witness :
    Vector2.set ⟨.num 6, .num 9⟩ (.num 3) = ⟨⟨.num 3, .num 3⟩, .ok .receiver⟩ ∧
      Vector2.add ⟨.num 6, .num 9⟩ (.num 3) = ⟨⟨.num (6 + 3), .num (9 + 3)⟩, .ok .receiver⟩ ∧
      Vector2.subtract ⟨.num 6, .num 9⟩ (.num 3) =
        ⟨⟨.num (6 - 3), .num (9 - 3)⟩, .ok .receiver⟩ ∧
      Vector2.multiply ⟨.num 6, .num 9⟩ (.num 3) =
        ⟨⟨.num (6 * 3), .num (9 * 3)⟩, .ok .receiver⟩ ∧
      Vector2.divide ⟨.num 6, .num 9⟩ (.num 3) =
        ⟨⟨.num (6 / 3), .num (9 / 3)⟩, .ok .receiver⟩ :=
  C7_scalar_is_broadcast 6 9 3 (by norm_num)

/-- C8: on a vector `v = (x, y)` with finite components and an operand `o` that
is `0`, `null` or `undefined`: `add(o)` and `subtract(o)` return `v` unchanged,
and `v.add(0).equals(v)` is true; `multiply(o)` and `set(o)` return `v` as
`(0, 0)`; and when `o` is `null` or `undefined`, `divide(o)` returns `v`
unchanged without throwing. -/
theorem C8_zero_or_absent_operand (x y : ℚ) (o : Value)
    (ho : o = .num 0 ∨ isEmpty o = true) :
    Vector2.add ⟨.num x, .num y⟩ o = ⟨⟨.num x, .num y⟩, .ok .receiver⟩ ∧
      Vector2.subtract ⟨.num x, .num y⟩ o = ⟨⟨.num x, .num y⟩, .ok .receiver⟩ ∧
      Vector2.equals (Vector2.add ⟨.num x, .num y⟩ (.num 0)).state
        (Vector2.toValue (Vector2.add ⟨.num x, .num y⟩ (.num 0)).state) = .ok true ∧
      Vector2.equals (Vector2.add ⟨.num x, .num y⟩ (.num 0)).state
        (Vector2.toValue ⟨.num x, .num y⟩) = .ok true ∧
      Vector2.multiply ⟨.num x, .num y⟩ o = ⟨⟨.num 0, .num 0⟩, .ok .receiver⟩ ∧
      Vector2.set ⟨.num x, .num y⟩ o = ⟨⟨.num 0, .num 0⟩, .ok .receiver⟩ ∧
      (isEmpty o = true →
        Vector2.divide ⟨.num x, .num y⟩ o = ⟨⟨.num x, .num y⟩, .ok .receiver⟩) := by
  have hadd0 : Vector2.add ⟨.num x, .num y⟩ (.num 0) =
      ⟨⟨.num x, .num y⟩, .ok .receiver⟩ := by
    simp [Vector2.add, is2DVectorLike, isDefined, isNumber, Value.x, Value.y, Value.num,
      jsOr, truthy]
  have heq : Vector2.equals ⟨.num x, .num y⟩ (Vector2.toValue ⟨.num x, .num y⟩) = .ok true := by
    simp [Vector2.equals, assert2DVector, assert, is2DVectorLike, isDefined, isNumber,
      Vector2.toValue, Value.x, Value.y, Value.num, strictEq, JSNumber.strictEq]
  rw [hadd0]
  refine ⟨?_, ?_, heq, heq, ?_, ?_, ?_⟩
  all_goals
    rcases ho with rfl | ho
    · simp [Vector2.set, Vector2.add, Vector2.subtract, Vector2.multiply, Vector2.divide,
        is2DVectorLike, isDefined, isNumber, isEmpty, Value.x, Value.y, Value.num, jsOr, truthy]
    · cases o <;> simp [isEmpty] at ho <;>
        simp [Vector2.set, Vector2.add, Vector2.subtract, Vector2.multiply, Vector2.divide,
          is2DVectorLike, isDefined, isNumber, isEmpty, Value.x, Value.y, Value.num, jsOr,
          truthy, strictEq, assert, number_div_fin]

/-- C8 at `v = (3, 4)` and the operand `undefined`. -/
theorem C8_zero_or_absent_operand_witness :
    Vector2.add ⟨.num 3, .num 4⟩ .undefined = ⟨⟨.num 3, .num 4⟩, .ok .receiver⟩ ∧
      Vector2.subtract ⟨.num 3, .num 4⟩ .undefined = ⟨⟨.num 3, .num 4⟩, .ok .receiver⟩ ∧
      Vector2.equals (Vector2.add ⟨.num 3, .num 4⟩ (.num 0)).state
        (Vector2.toValue (Vector2.add ⟨.num 3, .num 4⟩ (.num 0)).state) = .ok true ∧
      Vector2.equals (Vector2.add ⟨.num 3, .num 4⟩ (.num 0)).state
        (Vector2.toValue ⟨.num 3, .num 4⟩) = .ok true ∧
      Vector2.multiply ⟨.num 3, .num 4⟩ .undefined = ⟨⟨.num 0, .num 0⟩, .ok .receiver⟩ ∧
      Vector2.set ⟨.num 3, .num 4⟩ .undefined = ⟨⟨.num 0, .num 0⟩, .ok .receiver⟩ ∧
      (isEmpty .undefined = true →
        Vector2.divide ⟨.num 3, .num 4⟩ .undefined = ⟨⟨.num 3, .num 4⟩, .ok .receiver⟩) :=
  C8_zero_or_absent_operand 3 4 .undefined (Or.inr rfl)

/-! ## C9: `Vector2.min`, `Vector2.max` -/

/-- A 2D vector-like value reads finite numbers at `x` and `y`. -/
theorem is2DVectorLike_iff (w : Value) :
    is2DVectorLike w = true ↔ isDefined w = true ∧ ∃ p q : ℚ, w.x = .num p ∧ w.y = .num q := by
  simp only [is2DVectorLike, Bool.and_eq_true, isNumber_iff]
  constructor
  · rintro ⟨⟨hd, p, hp⟩, q, hq⟩
    exact ⟨hd, p, q, hp, hq⟩
  · rintro ⟨hd, p, q, hp, hq⟩
    exact ⟨⟨hd, p, hp⟩, q, hq⟩

theorem Vector2.from_vectorLike (A : Value) (a b : ℚ) (hd : isDefined A = true)
    (hx : A.x = .num a) (hy : A.y = .num b) : Vector2.from A = .ok ⟨.num a, .num b⟩ := by
  have hA : is2DVectorLike A = true := (is2DVectorLike_iff A).2 ⟨hd, a, b, hx, hy⟩
  simp [Vector2.from, hA, hx, hy, Vector2.constructor_num]

theorem Vector2.minStep_num (a b p q : ℚ) (w : Value) (hd : isDefined w = true)
    (hx : w.x = .num p) (hy : w.y = .num q) :
    Vector2.minStep ⟨.num a, .num b⟩ w = .ok ⟨.num (Min.min a p), .num (Min.min b q)⟩ := by
  have hw : is2DVectorLike w = true := (is2DVectorLike_iff w).2 ⟨hd, p, q, hx, hy⟩
  rcases le_or_lt a p with h1 | h1 <;> rcases le_or_lt b q with h2 | h2 <;>
    simp [Vector2.minStep, assert2DVector, assert, hw, hx, hy, Value.num, JSNumber.lt, h1, h2,
      not_lt.2, min_eq_left, min_eq_right, le_of_lt]

theorem Vector2.maxStep_num (a b p q : ℚ) (w : Value) (hd : isDefined w = true)
    (hx : w.x = .num p) (hy : w.y = .num q) :
    Vector2.maxStep ⟨.num a, .num b⟩ w = .ok ⟨.num (Max.max a p), .num (Max.max b q)⟩ := by
  have hw : is2DVectorLike w = true := (is2DVectorLike_iff w).2 ⟨hd, p, q, hx, hy⟩
  rcases le_or_lt p a with h1 | h1 <;> rcases le_or_lt q b with h2 | h2 <;>
    simp [Vector2.maxStep, assert2DVector, assert, hw, hx, hy, Value.num, JSNumber.lt, h1, h2,
      not_lt.2, max_eq_left, max_eq_right, le_of_lt]

/-- The loop of `min`, started at `(a, b)`: it ends at a pair of finite
numbers, each below the start and below that component of every vector of the
list, and each either the start or that component of a vector of the list. -/
theorem Vector2.min_loop (rest : List Value) (hrest : ∀ w ∈ rest, is2DVectorLike w = true)
    (a b : ℚ) :
    ∃ a1 b1 : ℚ, rest.foldlM Vector2.minStep ⟨.num a, .num b⟩ = .ok ⟨.num a1, .num b1⟩ ∧
      a1 ≤ a ∧ b1 ≤ b ∧
      (∀ w ∈ rest, ∀ p : ℚ, w.x = .num p → a1 ≤ p) ∧
      (∀ w ∈ rest, ∀ q : ℚ, w.y = .num q → b1 ≤ q) ∧
      (a1 = a ∨ ∃ w ∈ rest, w.x = .num a1) ∧ (b1 = b ∨ ∃ w ∈ rest, w.y = .num b1) := by
  induction rest generalizing a b with
  | nil => exact ⟨a, b, rfl, le_refl _, le_refl _, by simp, by simp, Or.inl rfl, Or.inl rfl⟩
  | cons w rest ih =>
    obtain ⟨hd, p, q, hx, hy⟩ := (is2DVectorLike_iff w).1 (hrest w (List.mem_cons_self _ _))
    obtain ⟨a1, b1, hfold, ha, hb, hlx, hly, hax, hby⟩ :=
      ih (fun v hv => hrest v (List.mem_cons_of_mem _ hv)) (Min.min a p) (Min.min b q)
    refine ⟨a1, b1, ?_, le_trans ha (min_le_left _ _), le_trans hb (min_le_left _ _),
      ?_, ?_, ?_, ?_⟩
    · rw [List.foldlM_cons, Vector2.minStep_num a b p q w hd hx hy]
      exact hfold
    · intro v hv r hr
      rcases List.mem_cons.1 hv with rfl | hv
      · have hpr : p = r := by
          rw [hx] at hr
          simpa [Value.num] using hr
        exact hpr ▸ le_trans ha (min_le_right _ _)
      · exact hlx v hv r hr
    · intro v hv r hr
      rcases List.mem_cons.1 hv with rfl | hv
      · have hqr : q = r := by
          rw [hy] at hr
          simpa [Value.num] using hr
        exact hqr ▸ le_trans hb (min_le_right _ _)
      · exact hly v hv r hr
    · rcases hax with h | ⟨v, hv, hvx⟩
      · rcases min_choice a p with hm | hm
        · exact Or.inl (h.trans hm)
        · exact Or.inr ⟨w, List.mem_cons_self _ _, by rw [hx, h, hm]⟩
      · exact Or.inr ⟨v, List.mem_cons_of_mem _ hv, hvx⟩
    · rcases hby with h | ⟨v, hv, hvy⟩
      · rcases min_choice b q with hm | hm
        · exact Or.inl (h.trans hm)
        · exact Or.inr ⟨w, List.mem_cons_self _ _, by rw [hy, h, hm]⟩
      · exact Or.inr ⟨v, List.mem_cons_of_mem _ hv, hvy⟩

/-- The loop of `max`, started at `(a, b)`: as `Vector2.min_loop`, from above. -/
theorem Vector2.max_loop (rest : List Value) (hrest : ∀ w ∈ rest, is2DVectorLike w = true)
    (a b : ℚ) :
    ∃ a1 b1 : ℚ, rest.foldlM Vector2.maxStep ⟨.num a, .num b⟩ = .ok ⟨.num a1, .num b1⟩ ∧
      a ≤ a1 ∧ b ≤ b1 ∧
      (∀ w ∈ rest, ∀ p : ℚ, w.x = .num p → p ≤ a1) ∧
      (∀ w ∈ rest, ∀ q : ℚ, w.y = .num q → q ≤ b1) ∧
      (a1 = a ∨ ∃ w ∈ rest, w.x = .num a1) ∧ (b1 = b ∨ ∃ w ∈ rest, w.y = .num b1) := by
  induction rest generalizing a b with
  | nil => exact ⟨a, b, rfl, le_refl _, le_refl _, by simp, by simp, Or.inl rfl, Or.inl rfl⟩
  | cons w rest ih =>
    obtain ⟨hd, p, q, hx, hy⟩ := (is2DVectorLike_iff w).1 (hrest w (List.mem_cons_self _ _))
    obtain ⟨a1, b1, hfold, ha, hb, hlx, hly, hax, hby⟩ :=
      ih (fun v hv => hrest v (List.mem_cons_of_mem _ hv)) (Max.max a p) (Max.max b q)
    refine ⟨a1, b1, ?_, le_trans (le_max_left _ _) ha, le_trans (le_max_left _ _) hb,
      ?_, ?_, ?_, ?_⟩
    · rw [List.foldlM_cons, Vector2.maxStep_num a b p q w hd hx hy]
      exact hfold
    · intro v hv r hr
      rcases List.mem_cons.1 hv with rfl | hv
      · have hpr : p = r := by
          rw [hx] at hr
          simpa [Value.num] using hr
        exact hpr ▸ le_trans (le_max_right _ _) ha
      · exact hlx v hv r hr
    · intro v hv r hr
      rcases List.mem_cons.1 hv with rfl | hv
      · have hqr : q = r := by
          rw [hy] at hr
          simpa [Value.num] using hr
        exact hqr ▸ le_trans (le_max_right _ _) hb
      · exact hly v hv r hr
    · rcases hax with h | ⟨v, hv, hvx⟩
      · rcases max_choice a p with hm | hm
        · exact Or.inl (h.trans hm)
        · exact Or.inr ⟨w, List.mem_cons_self _ _, by rw [hx, h, hm]⟩
      · exact Or.inr ⟨v, List.mem_cons_of_mem _ hv, hvx⟩
    · rcases hby with h | ⟨v, hv, hvy⟩
      · rcases max_choice b q with hm | hm
        · exact Or.inl (h.trans hm)
        · exact Or.inr ⟨w, List.mem_cons_self _ _, by rw [hy, h, hm]⟩
      · exact Or.inr ⟨v, List.mem_cons_of_mem _ hv, hvy⟩

/-- C9: for a 2D vector-like `A` and a list `rest` of 2D vector-likes,
`Vector2.min(A, ...rest)` and `Vector2.max(A, ...rest)` return vectors of finite
numbers: each component of the `min` is below, and each component of the `max`
above, that component of `A` and of every vector of `rest`, and each is that
component of one of them; with no `rest` both results have the components of
`A`. The results are new vectors made by `from`; the operands are values the
functions only read. -/
theorem C9_min_max_componentwise (A : Value) (rest : List Value)
    (hA : is2DVectorLike A = true) (hrest : ∀ w ∈ rest, is2DVectorLike w = true) :
    ∃ lx ly ux uy : ℚ,
      Vector2.min A rest = .ok ⟨.num lx, .num ly⟩ ∧
      Vector2.max A rest = .ok ⟨.num ux, .num uy⟩ ∧
      (∀ w ∈ A :: rest, ∀ p : ℚ, w.x = .num p → lx ≤ p ∧ p ≤ ux) ∧
      (∀ w ∈ A :: rest, ∀ q : ℚ, w.y = .num q → ly ≤ q ∧ q ≤ uy) ∧
      (∃ w ∈ A :: rest, w.x = .num lx) ∧ (∃ w ∈ A :: rest, w.y = .num ly) ∧
      (∃ w ∈ A :: rest, w.x = .num ux) ∧ (∃ w ∈ A :: rest, w.y = .num uy) ∧
      Vector2.min A [] = .ok ⟨A.x, A.y⟩ ∧ Vector2.max A [] = .ok ⟨A.x, A.y⟩ := by
  obtain ⟨hd, a, b, hx, hy⟩ := (is2DVectorLike_iff A).1 hA
  have hfrom := Vector2.from_vectorLike A a b hd hx hy
  obtain ⟨lx, ly, hmin, hla, hlb, hlx, hly, hlax, hlby⟩ := Vector2.min_loop rest hrest a b
  obtain ⟨ux, uy, hmax, hua, hub, hux, huy, huax, huby⟩ := Vector2.max_loop rest hrest a b
  have hnum : ∀ {p r : ℚ}, Value.num p = Value.num r → p = r := by
    intro p r h
    simpa [Value.num] using h
  refine ⟨lx, ly, ux, uy, ?_, ?_, ?_, ?_, ?_, ?_, ?_, ?_, ?_, ?_⟩
  · simp [Vector2.min, assert2DVector, assert, hA, hfrom, hmin]
  · simp [Vector2.max, assert2DVector, assert, hA, hfrom, hmax]
  · intro w hw p hp
    rcases List.mem_cons.1 hw with rfl | hw
    · have : a = p := hnum (hx.symm.trans hp)
      exact this ▸ ⟨hla, hua⟩
    · exact ⟨hlx w hw p hp, hux w hw p hp⟩
  · intro w hw q hq
    rcases List.mem_cons.1 hw with rfl | hw
    · have : b = q := hnum (hy.symm.trans hq)
      exact this ▸ ⟨hlb, hub⟩
    · exact ⟨hly w hw q hq, huy w hw q hq⟩
  · rcases hlax with h | ⟨w, hw, hwx⟩
    · exact ⟨A, List.mem_cons_self _ _, by rw [hx, h]⟩
    · exact ⟨w, List.mem_cons_of_mem _ hw, hwx⟩
  · rcases hlby with h | ⟨w, hw, hwy⟩
    · exact ⟨A, List.mem_cons_self _ _, by rw [hy, h]⟩
    · exact ⟨w, List.mem_cons_of_mem _ hw, hwy⟩
  · rcases huax with h | ⟨w, hw, hwx⟩
    · exact ⟨A, List.mem_cons_self _ _, by rw [hx, h]⟩
    · exact ⟨w, List.mem_cons_of_mem _ hw, hwx⟩
  · rcases huby with h | ⟨w, hw, hwy⟩
    · exact ⟨A, List.mem_cons_self _ _, by rw [hy, h]⟩
    · exact ⟨w, List.mem_cons_of_mem _ hw, hwy⟩
  · simp [Vector2.min, assert2DVector, assert, hA, hfrom, hx, hy]
  · simp [Vector2.max, assert2DVector, assert, hA, hfrom, hx, hy]

/-- C9 at the instances `A = (1,5)` and `rest = [(3,2)]`, with the two results
computed: `min` is `(1,2)` and `max` is `(3,5)`. -/
theorem C9_min_max_componentwise_witness :
    (∃ lx ly ux uy : ℚ,
      Vector2.min (.vector2 (.num 1) (.num 5))
        [.vector2 (.num 3) (.num 2)] = .ok ⟨.num lx, .num ly⟩ ∧
      Vector2.max (.vector2 (.num 1) (.num 5))
        [.vector2 (.num 3) (.num 2)] = .ok ⟨.num ux, .num uy⟩ ∧
      (∀ w ∈ [Value.vector2 (.num 1) (.num 5), .vector2 (.num 3) (.num 2)],
        ∀ p : ℚ, w.x = .num p → lx ≤ p ∧ p ≤ ux) ∧
      (∀ w ∈ [Value.vector2 (.num 1) (.num 5), .vector2 (.num 3) (.num 2)],
        ∀ q : ℚ, w.y = .num q → ly ≤ q ∧ q ≤ uy) ∧
      (∃ w ∈ [Value.vector2 (.num 1) (.num 5), .vector2 (.num 3) (.num 2)],
        w.x = .num lx) ∧
      (∃ w ∈ [Value.vector2 (.num 1) (.num 5), .vector2 (.num 3) (.num 2)],
        w.y = .num ly) ∧
      (∃ w ∈ [Value.vector2 (.num 1) (.num 5), .vector2 (.num 3) (.num 2)],
        w.x = .num ux) ∧
      (∃ w ∈ [Value.vector2 (.num 1) (.num 5), .vector2 (.num 3) (.num 2)],
        w.y = .num uy) ∧
      Vector2.min (.vector2 (.num 1) (.num 5)) [] =
        .ok ⟨(Value.vector2 (.num 1) (.num 5)).x,
          (Value.vector2 (.num 1) (.num 5)).y⟩ ∧
      Vector2.max (.vector2 (.num 1) (.num 5)) [] =
        .ok ⟨(Value.vector2 (.num 1) (.num 5)).x,
          (Value.vector2 (.num 1) (.num 5)).y⟩) ∧
    Vector2.min (.vector2 (.num 1) (.num 5))
      [.vector2 (.num 3) (.num 2)] = .ok ⟨.num 1, .num 2⟩ ∧
    Vector2.max (.vector2 (.num 1) (.num 5))
      [.vector2 (.num 3) (.num 2)] = .ok ⟨.num 3, .num 5⟩ := by
  refine ⟨C9_min_max_componentwise (.vector2 (.num 1) (.num 5))
    [.vector2 (.num 3) (.num 2)] rfl (by simp [is2DVectorLike, isDefined, isNumber,
      Value.x, Value.y, Value.num]), ?_, ?_⟩
  · have hA : is2DVectorLike (.vector2 (.num 1) (.num 5)) = true := rfl
    have hstep : (1 : ℚ) ⊓ 3 = 1 ∧ (5 : ℚ) ⊓ 2 = 2 := by norm_num
    simp only [Vector2.min, assert2DVector, assert, hA,
      Vector2.from_vectorLike (.vector2 (.num 1) (.num 5)) 1 5 rfl rfl rfl,
      List.foldlM_cons, List.foldlM_nil,
      Vector2.minStep_num 1 5 3 2 (.vector2 (.num 3) (.num 2)) rfl rfl rfl, hstep]
    rfl
  · have hA : is2DVectorLike (.vector2 (.num 1) (.num 5)) = true := rfl
    have hstep : (1 : ℚ) ⊔ 3 = 3 ∧ (5 : ℚ) ⊔ 2 = 5 := by norm_num
    simp only [Vector2.max, assert2DVector, assert, hA,
      Vector2.from_vectorLike (.vector2 (.num 1) (.num 5)) 1 5 rfl rfl rfl,
      List.foldlM_cons, List.foldlM_nil,
      Vector2.maxStep_num 1 5 3 2 (.vector2 (.num 3) (.num 2)) rfl rfl rfl, hstep]
    rfl

/-! ## C10: what the mutating methods return -/

@[simp] theorem mathSqrt_number (M : MathLib) (n : JSNumber) :
    mathSqrt M (.number n) = .ok (.number (M.sqrt n)) := rfl

@[simp] theorem mathCos_number (M : MathLib) (n : JSNumber) :
    mathCos M (.number n) = .ok (.number (M.cos n)) := rfl

@[simp] theorem mathSin_number (M : MathLib) (n : JSNumber) :
    mathSin M (.number n) = .ok (.number (M.sin n)) := rfl

@[simp] theorem mathAtan2_number (M : MathLib) (a b : JSNumber) :
    mathAtan2 M (.number a) (.number b) = .ok (.number (M.atan2 a b)) := rfl

theorem Vector2.mag_num (M : MathLib) (x y : ℚ) :
    Vector2.mag M ⟨.num x, .num y⟩ = .ok (.number (M.sqrt (.fin (x * x + y * y)))) := by
  simp [Vector2.mag, Vector2.magSq, Value.num, JSNumber.sq]

/-- `setHeading` on finite components and a number: the new components, and
`undefined` as the value of the call. -/
theorem Vector2.setHeading_num (M : MathLib) (x y : ℚ) (r : JSNumber) :
    Vector2.setHeading M ⟨.num x, .num y⟩ (.number r) =
      ⟨⟨.number ((M.sqrt (.fin (x * x + y * y))).mul (M.cos r)),
        .number ((M.sqrt (.fin (x * x + y * y))).mul (M.sin r))⟩, .ok .undefined⟩ := by
  simp [Vector2.setHeading, Vector2.mag_num]

/-- C10 (code defect): `setHeading` and `rotate` return `undefined`, not the
receiver. On `v = (1, 0)`, `v.setHeading(0)` and `v.rotate(0)` leave `v` as
`(1, 0)` and return `undefined`; whatever the host's `Math` computes, on finite
components and a number both calls return `undefined`, while `set`, `add`,
`subtract`, `multiply`, `divide`, `abs`, `normalize` and `negative` return the
receiver. `setHeading` has no `return` statement, and `rotate` returns what
`setHeading` returns. -/
theorem C10_setHeading_and_rotate_return_undefined (M : MathLib) (x y : ℚ) (n : JSNumber) :
    Vector2.setHeading MathLib.atUnit ⟨.num 1, .num 0⟩ (.num 0) =
        ⟨⟨.num 1, .num 0⟩, .ok .undefined⟩ ∧
      Vector2.rotate MathLib.atUnit ⟨.num 1, .num 0⟩ (.num 0) =
        ⟨⟨.num 1, .num 0⟩, .ok .undefined⟩ ∧
      (Vector2.setHeading M ⟨.num x, .num y⟩ (.number n)).result = .ok .undefined ∧
      (Vector2.rotate M ⟨.num x, .num y⟩ (.number n)).result = .ok .undefined ∧
      (Vector2.set ⟨.num x, .num y⟩ (.number n)).result = .ok .receiver ∧
      (Vector2.add ⟨.num x, .num y⟩ (.number n)).result = .ok .receiver ∧
      (Vector2.subtract ⟨.num x, .num y⟩ (.number n)).result = .ok .receiver ∧
      (Vector2.multiply ⟨.num x, .num y⟩ (.number n)).result = .ok .receiver ∧
      (n ≠ .fin 0 → (Vector2.divide ⟨.num x, .num y⟩ (.number n)).result = .ok .receiver) ∧
      (Vector2.abs ⟨.num x, .num y⟩).result = .ok .receiver ∧
      (Vector2.normalize M ⟨.num x, .num y⟩).result = .ok .receiver ∧
      (Vector2.negative ⟨.num x, .num y⟩).result = .ok .receiver := by
  have hvl : ∀ m : JSNumber, is2DVectorLike (.number m) = false := fun m => rfl
  have hor : ∀ d : JSNumber, jsOr (.number n) (.number d) =
      .number (if truthy (.number n) = true then n else d) := by
    intro d
    unfold jsOr
    split <;> rfl
  have hrot : ∀ (L : MathLib) (a b : ℚ) (r : JSNumber),
      Vector2.rotate L ⟨.num a, .num b⟩ (.number r) =
        Vector2.setHeading L ⟨.num a, .num b⟩
          (.number (r.add (L.atan2 (.fin b) (.fin a)))) := by
    intro L a b r
    simp [Vector2.rotate, Vector2.heading, Value.num]
  refine ⟨?_, ?_, ?_, ?_, ?_, ?_, ?_, ?_, ?_, ?_, ?_, ?_⟩
  · refine (Vector2.setHeading_num MathLib.atUnit 1 0 (.fin 0)).trans ?_
    norm_num [MathLib.atUnit, Value.num]
  · refine (hrot MathLib.atUnit 1 0 (.fin 0)).trans ?_
    refine (Vector2.setHeading_num MathLib.atUnit 1 0 _).trans ?_
    norm_num [MathLib.atUnit, Value.num]
  · rw [Vector2.setHeading_num]
  · rw [hrot, Vector2.setHeading_num]
  · simp [Vector2.set, hvl]
  · simp [Vector2.add, hvl, Value.num, hor]
  · simp [Vector2.subtract, hvl, Value.num, hor]
  · simp [Vector2.multiply, hvl, Value.num, hor]
  · intro hn
    have hne : strictEq (.number n) (.number (.fin 0)) = false := by
      cases n with
      | fin q =>
        have hq : q ≠ 0 := fun h => hn (by rw [h])
        simp [strictEq, JSNumber.strictEq, Value.num, hq]
      | _ => rfl
    simp [Vector2.divide, hvl, hne, assert, Value.num, hor]
  · by_cases hx : x < 0 <;> by_cases hy : y < 0 <;>
      simp [Vector2.abs, Value.num, JSNumber.lt, hx, hy]
  · simp only [Vector2.normalize, Method.run_eq, Method.bind_apply, Method.read_apply,
      Vector2.mag_num]
    have hor2 : ∀ m d : JSNumber, jsOr (.number m) (.number d) =
        .number (if truthy (.number m) = true then m else d) := by
      intro m d
      unfold jsOr
      split <;> rfl
    rw [Value.num.eq_1 0]
    cases hs : strictEq (.number (M.sqrt (.fin (x * x + y * y)))) (.number (.fin 0))
    · simp [Vector2.divide, hvl, hs, assert, Value.num, hor2]
    · simp
  · simp [Vector2.negative, Vector2.multiply, hvl, Value.num, jsOr, truthy]

/-! ## C11, C12: `distance` and `dot` -/

theorem is2DVectorLike_of (w : Value) (p q : ℚ) (hd : isDefined w = true)
    (hx : w.x = .num p) (hy : w.y = .num q) : is2DVectorLike w = true :=
  (is2DVectorLike_iff w).2 ⟨hd, p, q, hx, hy⟩

theorem assert2DVector_ok (w : Value) (message : Option String)
    (h : is2DVectorLike w = true) : assert2DVector w message = .ok () := by
  simp [assert2DVector, assert, h]

theorem assert2DVector_reject (w : Value) (h : is2DVectorLike w = false) :
    assert2DVector w none =
      .error (.error "The argument must be a Vector like object \x7bx, y\x7d.") := by
  simp only [assert2DVector, assert, h]
  rfl

/-- `Vector2.distance` on two 2D vector-likes: the host's square root of the
sum of the squared differences. -/
theorem Vector2.distance_num (M : MathLib) (A B : Value) (a b c d : ℚ)
    (hA : isDefined A = true) (hAx : A.x = .num a) (hAy : A.y = .num b)
    (hB : isDefined B = true) (hBx : B.x = .num c) (hBy : B.y = .num d) :
    Vector2.distance M A B =
      .ok (.number (M.sqrt (.fin ((c - a) * (c - a) + (d - b) * (d - b))))) := by
  simp [Vector2.distance, assert2DVector_ok, is2DVectorLike_of A a b hA hAx hAy,
    is2DVectorLike_of B c d hB hBx hBy, hAx, hAy, hBx, hBy, Value.num, JSNumber.sq]

/-- C11: for 2D vector-likes `A = (a, b)` and `B = (c, d)` with finite
components, `Vector2.distance(A, B)` and `Vector2.distance(B, A)` are the same
number, the host's `Math.sqrt` of `(c - a)^2 + (d - b)^2`; and when either
argument is not 2D vector-like the call throws the assertion's error. -/
theorem C11_distance_symmetric (M : MathLib) (A B C : Value) (a b c d : ℚ)
    (hA : isDefined A = true) (hAx : A.x = .num a) (hAy : A.y = .num b)
    (hB : isDefined B = true) (hBx : B.x = .num c) (hBy : B.y = .num d)
    (hC : is2DVectorLike C = false) :
    Vector2.distance M A B = Vector2.distance M B A ∧
      Vector2.distance M A B = .ok (.number (M.sqrt (.fin ((c - a) ^ 2 + (d - b) ^ 2)))) ∧
      Vector2.distance M C B =
        .error (.error "The argument must be a Vector like object \x7bx, y\x7d.") ∧
      Vector2.distance M A C =
        .error (.error "The argument must be a Vector like object \x7bx, y\x7d.") := by
  have h1 := Vector2.distance_num M A B a b c d hA hAx hAy hB hBx hBy
  have h2 := Vector2.distance_num M B A c d a b hB hBx hBy hA hAx hAy
  have e1 : (a - c) * (a - c) + (b - d) * (b - d) = (c - a) * (c - a) + (d - b) * (d - b) := by
    ring
  have e2 : (c - a) ^ 2 + (d - b) ^ 2 = (c - a) * (c - a) + (d - b) * (d - b) := by ring
  refine ⟨?_, ?_, ?_, ?_⟩
  · rw [h1, h2, e1]
  · rw [h1, e2]
  · simp [Vector2.distance, assert2DVector_reject C hC]
  · simp [Vector2.distance, assert2DVector_ok A none (is2DVectorLike_of A a b hA hAx hAy),
      assert2DVector_reject C hC]

/-- C11 at the instances `A = (0, 0)` and `B = (3, 4)`, with `C = undefined`
as the argument that is not vector-like. -/
theorem C11_distance_symmetric_witness :
    Vector2.distance MathLib.atSquares (.vector2 (.num 0) (.num 0)) (.vector2 (.num 3) (.num 4)) =
        Vector2.distance MathLib.atSquares (.vector2 (.num 3) (.num 4))
          (.vector2 (.num 0) (.num 0)) ∧
      Vector2.distance MathLib.atSquares (.vector2 (.num 0) (.num 0))
          (.vector2 (.num 3) (.num 4)) =
        .ok (.number (MathLib.atSquares.sqrt (.fin ((3 - 0) ^ 2 + (4 - 0) ^ 2)))) ∧
      Vector2.distance MathLib.atSquares .undefined (.vector2 (.num 3) (.num 4)) =
        .error (.error "The argument must be a Vector like object \x7bx, y\x7d.") ∧
      Vector2.distance MathLib.atSquares (.vector2 (.num 0) (.num 0)) .undefined =
        .error (.error "The argument must be a Vector like object \x7bx, y\x7d.") :=
  C11_distance_symmetric MathLib.atSquares (.vector2 (.num 0) (.num 0))
    (.vector2 (.num 3) (.num 4)) .undefined 0 0 3 4 rfl rfl rfl rfl rfl rfl rfl

/-- `Vector2.dot(A, B)` on two 2D vector-likes. -/
theorem Vector2.dotStatic_num (A B : Value) (a b c d : ℚ)
    (hA : isDefined A = true) (hAx : A.x = .num a) (hAy : A.y = .num b)
    (hB : isDefined B = true) (hBx : B.x = .num c) (hBy : B.y = .num d) :
    Vector2.dotStatic A B = .ok (.num (a * c + b * d)) := by
  simp [Vector2.dotStatic, assert2DVector_ok, is2DVectorLike_of A a b hA hAx hAy,
    is2DVectorLike_of B c d hB hBx hBy, hAx, hAy, hBx, hBy, Value.num]

/-- C12: for 2D vector-likes `A = (a, b)` and `B = (c, d)` with finite
components, `Vector2.dot(A, B)` and `Vector2.dot(B, A)` are the same number,
`a * c + b * d`, and `Vector2.from(A).dot(B)` is that number too; the static
`dot` throws the assertion's error when either argument is not 2D vector-like,
and so does the method when its operand is not. -/
theorem C12_dot_commutative (A B C : Value) (a b c d : ℚ)
    (hA : isDefined A = true) (hAx : A.x = .num a) (hAy : A.y = .num b)
    (hB : isDefined B = true) (hBx : B.x = .num c) (hBy : B.y = .num d)
    (hC : is2DVectorLike C = false) :
    Vector2.dotStatic A B = Vector2.dotStatic B A ∧
      Vector2.dotStatic A B = .ok (.num (a * c + b * d)) ∧
      (Vector2.from A >>= fun v => v.dot B) = Vector2.dotStatic A B ∧
      Vector2.dotStatic C B =
        .error (.error "The argument must be a Vector like object \x7bx, y\x7d.") ∧
      Vector2.dotStatic A C =
        .error (.error "The argument must be a Vector like object \x7bx, y\x7d.") ∧
      (Vector2.from A >>= fun v => v.dot C) =
        .error (.error "The argument must be a Vector like object \x7bx, y\x7d.") := by
  have h1 := Vector2.dotStatic_num A B a b c d hA hAx hAy hB hBx hBy
  have h2 := Vector2.dotStatic_num B A c d a b hB hBx hBy hA hAx hAy
  have e1 : c * a + d * b = a * c + b * d := by ring
  have hfrom := Vector2.from_vectorLike A a b hA hAx hAy
  refine ⟨?_, h1, ?_, ?_, ?_, ?_⟩
  · rw [h1, h2, e1]
  · rw [h1, hfrom]
    simp [Vector2.dot, assert2DVector_ok, is2DVectorLike_of B c d hB hBx hBy, hBx, hBy,
      Value.num]
  · simp [Vector2.dotStatic, assert2DVector_reject C hC]
  · simp [Vector2.dotStatic, assert2DVector_ok A none (is2DVectorLike_of A a b hA hAx hAy),
      assert2DVector_reject C hC]
  · rw [hfrom]
    simp [Vector2.dot, assert2DVector_reject C hC]

/-- C12 at the instances `A = (1, 2)` and `B = (3, 4)`, with the number `5` as
the operand that is not vector-like. -/
theorem C12_dot_commutative_witness :
    Vector2.dotStatic (.vector2 (.num 1) (.num 2)) (.vector2 (.num 3) (.num 4)) =
        Vector2.dotStatic (.vector2 (.num 3) (.num 4)) (.vector2 (.num 1) (.num 2)) ∧
      Vector2.dotStatic (.vector2 (.num 1) (.num 2)) (.vector2 (.num 3) (.num 4)) =
        .ok (.num (1 * 3 + 2 * 4)) ∧
      (Vector2.from (.vector2 (.num 1) (.num 2)) >>=
        fun v => v.dot (.vector2 (.num 3) (.num 4))) =
        Vector2.dotStatic (.vector2 (.num 1) (.num 2)) (.vector2 (.num 3) (.num 4)) ∧
      Vector2.dotStatic (.num 5) (.vector2 (.num 3) (.num 4)) =
        .error (.error "The argument must be a Vector like object \x7bx, y\x7d.") ∧
      Vector2.dotStatic (.vector2 (.num 1) (.num 2)) (.num 5) =
        .error (.error "The argument must be a Vector like object \x7bx, y\x7d.") ∧
      (Vector2.from (.vector2 (.num 1) (.num 2)) >>= fun v => v.dot (.num 5)) =
        .error (.error "The argument must be a Vector like object \x7bx, y\x7d.") :=
  C12_dot_commutative (.vector2 (.num 1) (.num 2)) (.vector2 (.num 3) (.num 4)) (.num 5)
    1 2 3 4 rfl rfl rfl rfl rfl rfl rfl

/-! ## C13: `clone` -/

theorem Vector3.constructor3_num (a b c : ℚ) :
    Vector3.constructor (.num a) (.num b) (.num c) = .ok ⟨.num a, .num b, .num c⟩ := by
  simp [Vector3.constructor, Vector3.ok, assert, isNumber, Value.num.eq_1 a,
    Value.num.eq_1 b, Value.num.eq_1 c]
  exact ⟨jsOr_num_zero a, jsOr_num_zero b, jsOr_num_zero c⟩

/-- A new object is none of the objects of the store, holds the state it was
made with, and leaves every object of the store as it was. -/
theorem Store.alloc_fresh {σ : Type} (s : Store σ) (o : σ) (v : Nat) (hv : v < s.next) :
    (s.alloc o).2 ≠ v ∧ (s.alloc o).1.read (s.alloc o).2 = o ∧
      (s.alloc o).1.read v = s.read v := by
  have hne : v ≠ s.next := Nat.ne_of_lt hv
  refine ⟨fun h => hne h.symm, ?_, ?_⟩
  · simp [Store.alloc, Store.read]
  · simp [Store.alloc, Store.read, hne]

/-- A call on one object leaves every other object as it was. -/
theorem Store.call_other {σ α : Type} (s : Store σ) (c v : Nat) (method : σ → Outcome σ α)
    (h : v ≠ c) : (s.call c method).1.read v = s.read v := by
  simp [Store.call, Store.write, Store.read, h]

theorem Store.call_self {σ α : Type} (s : Store σ) (c : Nat) (method : σ → Outcome σ α) :
    (s.call c method).1.read c = (method (s.read c)).state := by
  simp [Store.call, Store.write, Store.read]

theorem Vector2.cloneIn_num (s : Store Vector2) (v : Nat) (x y : ℚ)
    (h : s.read v = ⟨.num x, .num y⟩) :
    Vector2.cloneIn s v = .ok (s.alloc ⟨.num x, .num y⟩) := by
  simp [Vector2.cloneIn, Vector2.newIn, h, Vector2.constructor_num]

theorem Vector3.cloneIn3_num (s : Store Vector3) (v : Nat) (x y z : ℚ)
    (h : s.read v = ⟨.num x, .num y, .num z⟩) :
    Vector3.cloneIn s v = .ok (s.alloc ⟨.num x, .num y, .num z⟩) := by
  simp [Vector3.cloneIn, Vector3.newIn, h, Vector3.constructor3_num]

theorem Vector2.add_one (x y : ℚ) :
    Vector2.add ⟨.num x, .num y⟩ (.num 1) = ⟨⟨.num (x + 1), .num (y + 1)⟩, .ok .receiver⟩ := by
  simp [Vector2.add, is2DVectorLike, isDefined, isNumber, Value.x, Value.y, Value.num, jsOr,
    truthy]

theorem Vector3.add3_one (x y z : ℚ) :
    Vector3.add ⟨.num x, .num y, .num z⟩ (.num 1) =
      ⟨⟨.num (x + 1), .num (y + 1), .num (z + 1)⟩, .ok .receiver⟩ := by
  simp [Vector3.add, is3DVectorLike, isDefined, isNumber, Value.x, Value.y, Value.z,
    Value.num, jsOr, truthy]

/-- C13: in a store where `v` is a `Vector2` with finite components `(x, y)`,
`v.clone()` succeeds and returns a vector `c` that is a separate object (its
address is not `v`'s), with the components of `v`, and `v` is as it was;
`v.clone().equals(v)` is true; whatever method is then called on `c`, with
whatever operand, `v` still has the components `(x, y)`, and `c.add(1)` does
change `c`. The same holds of a `Vector3` with finite components. -/
theorem C13_clone_is_a_separate_object (s2 : Store Vector2) (s3 : Store Vector3) (v : Nat)
    (x y z : ℚ) (α : Type) (m2 : Vector2 → Outcome Vector2 α) (m3 : Vector3 → Outcome Vector3 α)
    (hv2 : v < s2.next) (h2 : s2.read v = ⟨.num x, .num y⟩)
    (hv3 : v < s3.next) (h3 : s3.read v = ⟨.num x, .num y, .num z⟩) :
    (∃ t c, Vector2.cloneIn s2 v = .ok (t, c) ∧ c ≠ v ∧
        t.read c = ⟨.num x, .num y⟩ ∧ t.read v = ⟨.num x, .num y⟩ ∧
        Vector2.equals (t.read c) (Vector2.toValue (t.read v)) = .ok true ∧
        (t.call c m2).1.read v = ⟨.num x, .num y⟩ ∧
        (t.call c fun o => o.add (.num 1)).1.read c = ⟨.num (x + 1), .num (y + 1)⟩ ∧
        (t.call c fun o => o.add (.num 1)).1.read v = ⟨.num x, .num y⟩) ∧
      (∃ t c, Vector3.cloneIn s3 v = .ok (t, c) ∧ c ≠ v ∧
        t.read c = ⟨.num x, .num y, .num z⟩ ∧ t.read v = ⟨.num x, .num y, .num z⟩ ∧
        Vector3.equals (t.read c) (Vector3.toValue (t.read v)) = .ok true ∧
        (t.call c m3).1.read v = ⟨.num x, .num y, .num z⟩ ∧
        (t.call c fun o => o.add (.num 1)).1.read c =
          ⟨.num (x + 1), .num (y + 1), .num (z + 1)⟩ ∧
        (t.call c fun o => o.add (.num 1)).1.read v = ⟨.num x, .num y, .num z⟩) := by
  constructor
  · obtain ⟨hne, hc, hvv⟩ := Store.alloc_fresh s2 ⟨.num x, .num y⟩ v hv2
    rw [h2] at hvv
    refine ⟨(s2.alloc ⟨.num x, .num y⟩).1, (s2.alloc ⟨.num x, .num y⟩).2,
      Vector2.cloneIn_num s2 v x y h2, hne, hc, hvv, ?_, ?_, ?_, ?_⟩
    · rw [hc, hvv]
      simp [Vector2.equals, assert2DVector, assert, is2DVectorLike, isDefined, isNumber,
        Vector2.toValue, Value.x, Value.y, Value.num, strictEq, JSNumber.strictEq]
    · rw [Store.call_other _ _ _ _ (Ne.symm hne), hvv]
    · rw [Store.call_self, hc, Vector2.add_one]
    · rw [Store.call_other _ _ _ _ (Ne.symm hne), hvv]
  · obtain ⟨hne, hc, hvv⟩ := Store.alloc_fresh s3 ⟨.num x, .num y, .num z⟩ v hv3
    rw [h3] at hvv
    refine ⟨(s3.alloc ⟨.num x, .num y, .num z⟩).1, (s3.alloc ⟨.num x, .num y, .num z⟩).2,
      Vector3.cloneIn3_num s3 v x y z h3, hne, hc, hvv, ?_, ?_, ?_, ?_⟩
    · rw [hc, hvv]
      simp [Vector3.equals, assert3DVector, assert, is3DVectorLike, isDefined, isNumber,
        Vector3.toValue, Value.x, Value.y, Value.z, Value.num, strictEq, JSNumber.strictEq]
    · rw [Store.call_other _ _ _ _ (Ne.symm hne), hvv]
    · rw [Store.call_self, hc, Vector3.add3_one]
    · rw [Store.call_other _ _ _ _ (Ne.symm hne), hvv]

/-- C13 in the stores whose one object, at address `0`, is `(1, 2)` and
`(1, 2, 3)`, with `multiply(5)` as the method called on the clone. -/
theorem C13_clone_is_a_separate_object_witness :
    (∃ t c, Vector2.cloneIn ⟨fun _ => ⟨.num 1, .num 2⟩, 1⟩ 0 = .ok (t, c) ∧ c ≠ 0 ∧
        t.read c = ⟨.num 1, .num 2⟩ ∧ t.read 0 = ⟨.num 1, .num 2⟩ ∧
        Vector2.equals (t.read c) (Vector2.toValue (t.read 0)) = .ok true ∧
        (t.call c fun o => o.multiply (.num 5)).1.read 0 = ⟨.num 1, .num 2⟩ ∧
        (t.call c fun o => o.add (.num 1)).1.read c = ⟨.num (1 + 1), .num (2 + 1)⟩ ∧
        (t.call c fun o => o.add (.num 1)).1.read 0 = ⟨.num 1, .num 2⟩) ∧
      (∃ t c, Vector3.cloneIn ⟨fun _ => ⟨.num 1, .num 2, .num 3⟩, 1⟩ 0 = .ok (t, c) ∧ c ≠ 0 ∧
        t.read c = ⟨.num 1, .num 2, .num 3⟩ ∧ t.read 0 = ⟨.num 1, .num 2, .num 3⟩ ∧
        Vector3.equals (t.read c) (Vector3.toValue (t.read 0)) = .ok true ∧
        (t.call c fun o => o.multiply (.num 5)).1.read 0 = ⟨.num 1, .num 2, .num 3⟩ ∧
        (t.call c fun o => o.add (.num 1)).1.read c =
          ⟨.num (1 + 1), .num (2 + 1), .num (3 + 1)⟩ ∧
        (t.call c fun o => o.add (.num 1)).1.read 0 = ⟨.num 1, .num 2, .num 3⟩) :=
  C13_clone_is_a_separate_object ⟨fun _ => ⟨.num 1, .num 2⟩, 1⟩
    ⟨fun _ => ⟨.num 1, .num 2, .num 3⟩, 1⟩ 0 1 2 3 Returned
    (fun o => o.multiply (.num 5)) (fun o => o.multiply (.num 5))
    Nat.zero_lt_one rfl Nat.zero_lt_one rfl

/-! ## C14, C15: `Vector3.of`, `Vector3.from` -/

/-- `Vector2.from(n)` on a finite number. -/
theorem Vector2.from_num (n : ℚ) : Vector2.from (.num n) = .ok ⟨.num n, .num n⟩ := by
  have h2 : is2DVectorLike (.num n) = false := rfl
  have ha : isArray (.num n) = false := rfl
  have hn : isNumber (.num n) = true := rfl
  simp [Vector2.from, h2, ha, hn, Vector2.constructor_num]

/-- C14: for a finite number `x` and any `y`, `z`, `Vector3.of(x, y, z)` is the
vector `(x, y', z')` with `y'` the argument `y` when it is a finite number and
`x` otherwise, and `z'` likewise; `Vector3.of(x).toArray()` is `[x, x, x]`, and
`Vector3.of(2).toArray()` is `[2, 2, 2]`; and `Vector3.of` throws the
assertion's error when its first argument is not a finite number. -/
theorem C14_Vector3_of (x : ℚ) (w y z : Value) :
    Vector3.of (.num x) y z =
        .ok ⟨.num x, if isNumber y = true then y else .num x,
          if isNumber z = true then z else .num x⟩ ∧
      (Vector3.of (.num x) .undefined .undefined >>= fun v => pure v.toArray) =
        .ok (.array [.num x, .num x, .num x]) ∧
      (Vector3.of (.num 2) .undefined .undefined >>= fun v => pure v.toArray) =
        .ok (.array [.num 2, .num 2, .num 2]) ∧
      (isNumber w = false →
        Vector3.of w y z = .error (.error "X, Y and Z must be a number.")) := by
  have hof : ∀ (a : ℚ) (u v : Value), Vector3.of (.num a) u v =
      .ok ⟨.num a, if isNumber u = true then u else .num a,
        if isNumber v = true then v else .num a⟩ := by
    intro a u v
    have hx : isNumber (.num a) = true := rfl
    cases hu : isNumber u <;> cases hv : isNumber v
    · simp [Vector3.of, assert, hx, hu, hv, Vector3.constructor3_num]
    · obtain ⟨q, rfl⟩ := (isNumber_iff v).1 hv
      simp [Vector3.of, assert, hx, hu, hv, Vector3.constructor3_num]
    · obtain ⟨p, rfl⟩ := (isNumber_iff u).1 hu
      simp [Vector3.of, assert, hx, hu, hv, Vector3.constructor3_num]
    · obtain ⟨p, rfl⟩ := (isNumber_iff u).1 hu
      obtain ⟨q, rfl⟩ := (isNumber_iff v).1 hv
      simp [Vector3.of, assert, hx, hu, hv, Vector3.constructor3_num]
  have hund : isNumber .undefined = false := rfl
  refine ⟨hof x y z, ?_, ?_, ?_⟩
  · rw [hof x .undefined .undefined]
    simp [hund, Vector3.toArray]
  · rw [hof 2 .undefined .undefined]
    simp [hund, Vector3.toArray]
  · intro hw
    simp only [Vector3.of, assert, hw]
    rfl

/-- C15 (code defect): for a finite number `n`, `Vector3.from(n)` throws. Its
number case calls `new this(target, target)` with two arguments, so `z` is
`undefined`, `ok` is false and the constructor goes on to `undef`, which calls
the unbound `isUndefined`. `Vector2.from(n)`, which passes both of its
components, returns `(n, n)`. -/
theorem C15_Vector3_from_number_throws (n : ℚ) :
    Vector3.from (.num n) = .error .typeError ∧
      Vector3.ok (.num n) (.num n) .undefined = false ∧
      Vector2.from (.num n) = .ok ⟨.num n, .num n⟩ := by
  refine ⟨?_, rfl, ?_⟩
  · have h3 : is3DVectorLike (.num n) = false := rfl
    have ha : isArray (.num n) = false := rfl
    have hn : isNumber (.num n) = true := rfl
    have hok : Vector3.ok (.num n) (.num n) .undefined = false := rfl
    simp [Vector3.from, h3, ha, hn, Vector3.constructor, hok, Vector3.undef, isUndefined]
  · have h2 : is2DVectorLike (.num n) = false := rfl
    have ha : isArray (.num n) = false := rfl
    have hn : isNumber (.num n) = true := rfl
    simp [Vector2.from, h2, ha, hn, Vector2.constructor_num]

/-! ## C16: `Vector2.from` -/

/-- C16 (as stated, false): the empty array is not 2D vector-like, is not a
number and has no finite first two entries, and `Vector2.from([])` does not
throw: it returns `(0, 0)`. -/
theorem C16_from_empty_array_returns_zero :
    Vector2.from (.array []) = .ok ⟨.num 0, .num 0⟩ ∧
      is2DVectorLike (.array []) = false ∧ isNumber (.array []) = false ∧
      isNumber ((Value.array []).index 0) = false ∧
      isNumber ((Value.array []).index 1) = false := by
  refine ⟨?_, rfl, rfl, rfl, rfl⟩
  have h2 : is2DVectorLike (.array []) = false := rfl
  have ha : isArray (.array []) = true := rfl
  simp [Vector2.from, h2, ha, Value.index, Vector2.constructor_empty, isEmpty]

/-- C16 (amended): `Vector2.from(target)` is `(t.x, t.y)` on a 2D vector-like;
on an array it is `new Vector2(target[0], target[1])`, so `(a, b)` when the
first two entries are the finite numbers `a`, `b`, `(0, 0)` when both are
absent (as in `[]`), and the constructor's error otherwise; on a finite number
`n` it is `(n, n)`; and on a target that is not 2D vector-like, not an array and
not a finite number (`null`, `undefined`, `NaN`, an infinity, a string, an
object without finite `x` and `y`) it throws the error of `assert.fail`. -/
theorem C16_from_shapes (t : Value) (items rest : List Value) (a b n : ℚ) :
    (is2DVectorLike t = true → Vector2.from t = .ok ⟨t.x, t.y⟩) ∧
      Vector2.from (.array items) =
        Vector2.constructor (items.getD 0 .undefined) (items.getD 1 .undefined) ∧
      Vector2.from (.array (.num a :: .num b :: rest)) = .ok ⟨.num a, .num b⟩ ∧
      (isEmpty (items.getD 0 .undefined) = true → isEmpty (items.getD 1 .undefined) = true →
        Vector2.from (.array items) = .ok ⟨.num 0, .num 0⟩) ∧
      ((Vector2.ok (items.getD 0 .undefined) (items.getD 1 .undefined) ||
          Vector2.undef (items.getD 0 .undefined) (items.getD 1 .undefined)) = false →
        Vector2.from (.array items) = .error (.error "x and y must be a number.")) ∧
      Vector2.from (.num n) = .ok ⟨.num n, .num n⟩ ∧
      (is2DVectorLike t = false → isArray t = false → isNumber t = false →
        Vector2.from t = .error (.error
          "Unexpected type target.Argument must be array or Vector like object.")) ∧
      Vector2.from .null = .error (.error
        "Unexpected type target.Argument must be array or Vector like object.") ∧
      Vector2.from (.number .nan) = .error (.error
        "Unexpected type target.Argument must be array or Vector like object.") ∧
      Vector2.from (.object (.num 1) .undefined .undefined) = .error (.error
        "Unexpected type target.Argument must be array or Vector like object.") := by
  have harr : ∀ l : List Value, Vector2.from (.array l) =
      Vector2.constructor (l.getD 0 .undefined) (l.getD 1 .undefined) := by
    intro l
    have h2 : is2DVectorLike (.array l) = false := rfl
    have ha : isArray (.array l) = true := rfl
    simp [Vector2.from, h2, ha, Value.index]
  have hfail : ∀ u : Value, is2DVectorLike u = false → isArray u = false →
      isNumber u = false → Vector2.from u = .error (.error
        "Unexpected type target.Argument must be array or Vector like object.") := by
    intro u h2 ha hn
    simp [Vector2.from, h2, ha, hn, assert.fail]
  refine ⟨?_, harr items, ?_, ?_, ?_, (Vector2.from_num n), hfail t,
    hfail _ rfl rfl rfl, hfail _ rfl rfl rfl, hfail _ rfl rfl rfl⟩
  · intro ht
    obtain ⟨hd, p, q, hx, hy⟩ := (is2DVectorLike_iff t).1 ht
    rw [Vector2.from_vectorLike t p q hd hx hy, hx, hy]
  · rw [harr]
    exact Vector2.constructor_num a b
  · intro h0 h1
    rw [harr]
    exact Vector2.constructor_empty _ _ h0 h1
  · intro h
    rw [harr]
    exact Vector2.constructor_reject _ _ h

/-! ## C17: `toString` -/

/-- C17 (code defect): `toString()` of a `Vector2` throws a `ReferenceError`
whatever its components are (here also at `(1, 2)`): its template reads `x`
and `y`, not `this.x` and `this.y`. `toString()` of a `Vector3`, whose template
reads `this.x`, `this.y`, `this.z`, returns the string built from the
components: `"[Vector3 1,2,3]"` for `(1, 2, 3)`. -/
theorem C17_Vector2_toString_throws (v : Vector2) (a b c : JSNumber) :
    Vector2.toString v = .error .referenceError ∧
      Vector2.toString ⟨.num 1, .num 2⟩ = .error .referenceError ∧
      Vector3.toString ⟨.num 1, .num 2, .num 3⟩ = .ok "[Vector3 1,2,3]" ∧
      Vector3.toString ⟨.number a, .number b, .number c⟩ =
        (do
          let sx ← a.toJSString
          let sy ← b.toJSString
          let sz ← c.toJSString
          pure ("[Vector3 " ++ sx ++ "," ++ sy ++ "," ++ sz ++ "]")) := by
  refine ⟨rfl, rfl, ?_, ?_⟩
  · simp [Vector3.toString, toStringJS, JSNumber.toJSString, Value.num]
    rfl
  · simp [Vector3.toString, toStringJS]

/-! ## C18: `Vector2.normalize` -/

theorem Vector2.magSq_num (x y : ℚ) :
    Vector2.magSq ⟨.num x, .num y⟩ = .ok (.num (x * x + y * y)) := by
  simp [Vector2.magSq, Value.num, JSNumber.sq]

/-- `normalize` when the host's square root of `x * x + y * y` is the finite
number `m`: nothing changes for `m = 0`, and both components are divided by
`m` otherwise. -/
theorem Vector2.normalize_num (M : MathLib) (x y m : ℚ)
    (hm : M.sqrt (.fin (x * x + y * y)) = .fin m) :
    Vector2.normalize M ⟨.num x, .num y⟩ =
      if m = 0 then ⟨⟨.num x, .num y⟩, .ok .receiver⟩
      else ⟨⟨.num (x / m), .num (y / m)⟩, .ok .receiver⟩ := by
  have hvl : is2DVectorLike (.number (.fin m)) = false := rfl
  simp only [Vector2.normalize, Method.run_eq, Method.bind_apply, Method.read_apply,
    Vector2.mag_num, hm]
  by_cases h0 : m = 0
  · simp [h0, strictEq, JSNumber.strictEq, Value.num]
  · simp [h0, strictEq, JSNumber.strictEq, Value.num, Vector2.divide, hvl, assert, jsOr,
      truthy, number_div_fin]

/-- C18 (as stated, false): on `v = (1, 1)`, where `Math.sqrt(2)` is the double
`m = 6369051672525773 / 2^52`, `normalize()` leaves `v = (1 / m, 1 / m)`, and
the squared magnitude of that vector is below `1`, so its magnitude is not
`1`: `m` is not the square root of `2`, which no number of the host is. -/
theorem C18_normalize_magnitude_is_not_one :
    Vector2.normalize MathLib.atTwo ⟨.num 1, .num 1⟩ =
        ⟨⟨.num (1 / (6369051672525773 / 4503599627370496)),
          .num (1 / (6369051672525773 / 4503599627370496))⟩, .ok .receiver⟩ ∧
      Vector2.magSq (Vector2.normalize MathLib.atTwo ⟨.num 1, .num 1⟩).state =
        .ok (.num (40564819207303340847894502572032 / 40564819207303346393761349247529)) ∧
      (40564819207303340847894502572032 / 40564819207303346393761349247529 : ℚ) < 1 ∧
      (40564819207303340847894502572032 / 40564819207303346393761349247529 : ℚ) ≠ 1 := by
  have hm : MathLib.atTwo.sqrt (.fin (1 * 1 + 1 * 1)) =
      .fin (6369051672525773 / 4503599627370496) := by
    norm_num [MathLib.atTwo]
  have hn := Vector2.normalize_num MathLib.atTwo 1 1 _ hm
  rw [if_neg (by norm_num)] at hn
  refine ⟨hn, ?_, by norm_num, by norm_num⟩
  rw [hn, Vector2.magSq_num]
  norm_num

/-- C18 (amended): on `v = (x, y)` with finite components, with `m` the finite
number the host's `Math.sqrt` gives for `x * x + y * y`: when `m` is `0`,
`normalize()` returns `v` unchanged without throwing, and when `m` is not `0`
it returns `v` as `(x / m, y / m)`; when `m` is the positive square root
exactly (`m * m = x * x + y * y`), the new components have squared magnitude
`1`, so the new magnitude is `Math.sqrt(1)`, and they are `(x, y)` scaled by the
positive factor `1 / m`; and where `Math.sqrt(0)` is `0`,
`Vector2.zero().normalize().equals(Vector2.zero())` is true. -/
theorem C18_normalize (M : MathLib) (x y m : ℚ)
    (hm : M.sqrt (.fin (x * x + y * y)) = .fin m) :
    Vector2.normalize M ⟨.num x, .num y⟩ =
        (if m = 0 then ⟨⟨.num x, .num y⟩, .ok .receiver⟩
          else ⟨⟨.num (x / m), .num (y / m)⟩, .ok .receiver⟩) ∧
      (0 < m → m * m = x * x + y * y →
        Vector2.magSq (Vector2.normalize M ⟨.num x, .num y⟩).state = .ok (.num 1) ∧
        Vector2.mag M (Vector2.normalize M ⟨.num x, .num y⟩).state =
          .ok (.number (M.sqrt (.fin 1))) ∧
        (Vector2.normalize M ⟨.num x, .num y⟩).state =
          ⟨.num (1 / m * x), .num (1 / m * y)⟩ ∧ 0 < 1 / m) ∧
      (M.sqrt (.fin 0) = .fin 0 →
        Vector2.normalize M ⟨.num 0, .num 0⟩ = ⟨⟨.num 0, .num 0⟩, .ok .receiver⟩ ∧
        (Vector2.zero >>= fun v => Vector2.chain (Vector2.normalize M v) >>=
          fun n => Vector2.zero >>= fun o => n.equals (Vector2.toValue o)) = .ok true) := by
  have hn := Vector2.normalize_num M x y m hm
  refine ⟨hn, ?_, ?_⟩
  · intro hpos hsq
    have h0 : m ≠ 0 := ne_of_gt hpos
    have hone : x / m * (x / m) + y / m * (y / m) = 1 := by
      field_simp
      linarith
    rw [hn, if_neg h0]
    refine ⟨?_, ?_, ?_, by positivity⟩
    · rw [Vector2.magSq_num, hone]
    · rw [Vector2.mag_num, hone]
    · have ex : x / m = 1 / m * x := by ring
      have ey : y / m = 1 / m * y := by ring
      rw [ex, ey]
  · intro hz
    have hz2 : M.sqrt (.fin (0 * 0 + 0 * 0)) = .fin 0 := by
      rw [← hz]
      norm_num
    have h00 := Vector2.normalize_num M 0 0 0 hz2
    rw [if_pos rfl] at h00
    refine ⟨h00, ?_⟩
    simp only [Vector2.zero, Vector2.constructor_num, except_ok_bind, h00, Vector2.chain]
    simp [Vector2.equals, assert2DVector, assert, is2DVectorLike, isDefined, isNumber,
      Vector2.toValue, Value.x, Value.y, Value.num, strictEq, JSNumber.strictEq]

/-- C18 (amended) at `v = (3, 4)`, where `Math.sqrt(25)` is `5` and
`Math.sqrt(0)` is `0`, with the premises met: `normalize()` leaves
`(3 / 5, 4 / 5)`, of squared magnitude `1`, and the zero vector is unchanged. -/
theorem C18_normalize_witness :
    Vector2.normalize MathLib.atSquares ⟨.num 3, .num 4⟩ =
        ⟨⟨.num (3 / 5), .num (4 / 5)⟩, .ok .receiver⟩ ∧
      Vector2.magSq (Vector2.normalize MathLib.atSquares ⟨.num 3, .num 4⟩).state =
        .ok (.num 1) ∧
      Vector2.mag MathLib.atSquares (Vector2.normalize MathLib.atSquares ⟨.num 3, .num 4⟩).state =
        .ok (.number (MathLib.atSquares.sqrt (.fin 1))) ∧
      (Vector2.normalize MathLib.atSquares ⟨.num 3, .num 4⟩).state =
        ⟨.num (1 / 5 * 3), .num (1 / 5 * 4)⟩ ∧
      Vector2.normalize MathLib.atSquares ⟨.num 0, .num 0⟩ =
        ⟨⟨.num 0, .num 0⟩, .ok .receiver⟩ ∧
      (Vector2.zero >>= fun v => Vector2.chain (Vector2.normalize MathLib.atSquares v) >>=
        fun n => Vector2.zero >>= fun o => n.equals (Vector2.toValue o)) = .ok true := by
  have h := C18_normalize MathLib.atSquares 3 4 5 (by norm_num [MathLib.atSquares])
  have hsq := h.2.1 (by norm_num) (by norm_num)
  have hzero := h.2.2 (by norm_num [MathLib.atSquares])
  refine ⟨?_, hsq.1, hsq.2.1, hsq.2.2.1, hzero.1, hzero.2⟩
  have h1 := h.1
  rw [if_neg (by norm_num)] at h1
  exact h1

/-! ## C19: `Vector3.setHeading` -/

theorem Vector3.mag3_num (M : MathLib) (x y z : ℚ) :
    Vector3.mag M ⟨.num x, .num y, .num z⟩ =
      .ok (.number (M.sqrt (.fin (x * x + y * y + z * z)))) := by
  simp [Vector3.mag, Vector3.magSq, Value.num, JSNumber.sq]

/-- `Vector3.setHeading` on finite components and a number: `z` stays, and `x`
and `y` are scaled by `this.mag()`, the square root over all three components. -/
theorem Vector3.setHeading3_num (M : MathLib) (x y z : ℚ) (r : JSNumber) :
    Vector3.setHeading M ⟨.num x, .num y, .num z⟩ (.number r) =
      ⟨⟨.number ((M.sqrt (.fin (x * x + y * y + z * z))).mul (M.cos r)),
        .number ((M.sqrt (.fin (x * x + y * y + z * z))).mul (M.sin r)), .num z⟩,
        .ok .undefined⟩ := by
  simp [Vector3.setHeading, Vector3.mag3_num]

/-- C19 (code defect): `Vector3.setHeading` leaves `z` as it is but does not
ignore it: `x` and `y` become `Math.sqrt(x*x + y*y + z*z)` times the cosine and
the sine. On `(3, 0, 4)` the call `setHeading(0)` leaves `(5, 0, 4)`, where
`sqrt(3*3 + 0*0) * cos(0)` is `3`, and on `(3, 0, 0)`, which differs only in
`z`, it leaves `(3, 0, 0)`. -/
theorem C19_Vector3_setHeading_uses_z (M : MathLib) (x y z : ℚ) (r : JSNumber) :
    (Vector3.setHeading M ⟨.num x, .num y, .num z⟩ (.number r)).state =
        ⟨.number ((M.sqrt (.fin (x * x + y * y + z * z))).mul (M.cos r)),
          .number ((M.sqrt (.fin (x * x + y * y + z * z))).mul (M.sin r)), .num z⟩ ∧
      (Vector3.setHeading MathLib.atSquares ⟨.num 3, .num 0, .num 4⟩ (.num 0)).state =
        ⟨.num 5, .num 0, .num 4⟩ ∧
      (Vector3.setHeading MathLib.atSquares ⟨.num 3, .num 0, .num 0⟩ (.num 0)).state =
        ⟨.num 3, .num 0, .num 0⟩ ∧
      (MathLib.atSquares.sqrt (.fin (3 * 3 + 0 * 0))).mul (MathLib.atSquares.cos (.fin 0)) =
        .fin 3 := by
  refine ⟨?_, ?_, ?_, ?_⟩
  · rw [Vector3.setHeading3_num]
  · refine (congrArg Outcome.state
      (Vector3.setHeading3_num MathLib.atSquares 3 0 4 (.fin 0))).trans ?_
    norm_num [MathLib.atSquares, Value.num]
  · refine (congrArg Outcome.state
      (Vector3.setHeading3_num MathLib.atSquares 3 0 0 (.fin 0))).trans ?_
    norm_num [MathLib.atSquares, Value.num]
  · norm_num [MathLib.atSquares]

/-! ## C20: `Vector2.set` with a vector-like operand -/

/-- A 2D vector-like value is an object: it is truthy and is not a number. -/
theorem truthy_of_is2DVectorLike (w : Value) (hw : is2DVectorLike w = true) :
    truthy w = true ∧ isNumber w = false ∧ ∀ n : JSNumber, strictEq w (.number n) = false := by
  cases w <;> simp_all [is2DVectorLike, isDefined, isNumber, Value.x, Value.y, truthy, strictEq]

/-- `set` with a 2D vector-like operand that is not the receiver, on states:
both components hold the operand, `isOK()` is false and `equals(w)` is false. -/
theorem Vector2.set_vectorLike (v : Vector2) (w : Value) (hw : is2DVectorLike w = true) :
    Vector2.set v w = ⟨⟨w, w⟩, .ok .receiver⟩ ∧
      Vector2.isOK (Vector2.set v w).state = false ∧
      Vector2.equals (Vector2.set v w).state w = .ok false := by
  obtain ⟨ht, hn, hs⟩ := truthy_of_is2DVectorLike w hw
  obtain ⟨_, p, q, hx, hy⟩ := (is2DVectorLike_iff w).1 hw
  have hset : Vector2.set v w = ⟨⟨w, w⟩, .ok .receiver⟩ := by
    simp [Vector2.set, hw, jsOr, ht]
  refine ⟨hset, ?_, ?_⟩
  · rw [hset]
    simp [Vector2.isOK, Vector2.ok, hn]
  · rw [hset]
    simp [Vector2.equals, assert2DVector_ok w none hw, hx, Value.num, hs]

theorem Store.read_write {σ : Type} (s : Store σ) (a b : Nat) (o : σ) :
    (s.write a o).read b = if b = a then o else s.read b := rfl

/-- `set` in the store leaves in both properties of the receiver what
`value || 0` is, whatever the operand. -/
theorem LiveVector2.set_read_self (s : Store LiveVector2) (v : Nat) (w : Slot) :
    (LiveVector2.set s v w).1.read v =
        ⟨w.jsOr (.value (.num 0)), w.jsOr (.value (.num 0))⟩ ∧
      (LiveVector2.set s v w).2 = .receiver := by
  simp [LiveVector2.set, LiveVector2.assignX, LiveVector2.assignY, Store.read_write]

/-- `set` in the store leaves every other vector as it was. -/
theorem LiveVector2.set_read_other (s : Store LiveVector2) (v a : Nat) (w : Slot)
    (h : a ≠ v) : (LiveVector2.set s v w).1.read a = s.read a := by
  unfold LiveVector2.set
  split <;> simp [LiveVector2.assignX, LiveVector2.assignY, Store.read_write, h]

/-- On an operand that is no vector of the store, `set` in the store leaves
the receiver with what `set` on states leaves, from whatever state `(a, b)`. -/
theorem LiveVector2.set_value (s : Store LiveVector2) (v : Nat) (a b u : Value) :
    (LiveVector2.set s v (.value u)).1.read v =
      ⟨.value (Vector2.set ⟨a, b⟩ u).state.x, .value (Vector2.set ⟨a, b⟩ u).state.y⟩ := by
  rw [(LiveVector2.set_read_self s v (.value u)).1]
  have hstate : (Vector2.set ⟨a, b⟩ u).state = ⟨jsOr u (.num 0), jsOr u (.num 0)⟩ := by
    unfold Vector2.set
    by_cases hu : VectorLib.is2DVectorLike u = true <;> simp [hu]
  rw [hstate]
  by_cases ht : truthy u = true <;> simp [Slot.jsOr, Slot.truthy, jsOr, ht]

/-- A 2D vector-like operand of the store is an object: truthy, no number, and
not `===` to a value that is a number. -/
theorem LiveVector2.object_of_is2DVectorLike (s : Store LiveVector2) (w : Slot)
    (hw : LiveVector2.is2DVectorLike s w = true) :
    w.truthy = true ∧ w.isNumber = false ∧
      ∀ r : Slot, r.isNumber = true → Slot.strictEq w r = false := by
  cases w with
  | value u =>
    have hu : VectorLib.is2DVectorLike u = true := by
      simpa [LiveVector2.is2DVectorLike, VectorLib.is2DVectorLike, Slot.isDefined, Slot.x,
        Slot.y, Slot.isNumber] using hw
    obtain ⟨ht, hn, hs⟩ := truthy_of_is2DVectorLike u hu
    refine ⟨ht, hn, ?_⟩
    intro r hr
    cases r with
    | value q =>
      obtain ⟨p, rfl⟩ := (isNumber_iff q).1 hr
      exact hs (.fin p)
    | vector a => rfl
  | vector a =>
    refine ⟨rfl, rfl, ?_⟩
    intro r hr
    cases r with
    | value q => rfl
    | vector b => simp [Slot.isNumber] at hr

/-- C20 (as stated, false): in the store whose vector at address `0` is
`v = (1, 2)`, the operand `v` is 2D vector-like, and `v.set(v)` leaves both
components of `v` holding `v` itself, so `v.isOK()` is false; but `v` is then
no longer 2D vector-like, and `v.equals(v)` throws the assertion's error
instead of returning false. -/
theorem C20_set_with_the_receiver_throws_in_equals :
    LiveVector2.is2DVectorLike ⟨fun _ => ⟨.value (.num 1), .value (.num 2)⟩, 1⟩ (.vector 0) =
        true ∧
      (LiveVector2.set ⟨fun _ => ⟨.value (.num 1), .value (.num 2)⟩, 1⟩ 0 (.vector 0)).1.read 0 =
        ⟨.vector 0, .vector 0⟩ ∧
      LiveVector2.isOK
        (LiveVector2.set ⟨fun _ => ⟨.value (.num 1), .value (.num 2)⟩, 1⟩ 0 (.vector 0)).1 0 =
        false ∧
      LiveVector2.equals
        (LiveVector2.set ⟨fun _ => ⟨.value (.num 1), .value (.num 2)⟩, 1⟩ 0 (.vector 0)).1 0
        (.vector 0) =
        .error (.error "The argument must be a Vector like object \x7bx, y\x7d.") ∧
      LiveVector2.equals
        (LiveVector2.set ⟨fun _ => ⟨.value (.num 1), .value (.num 2)⟩, 1⟩ 0 (.vector 0)).1 0
        (.vector 0) ≠ .ok false := by
  have hread := (LiveVector2.set_read_self
    ⟨fun _ => ⟨.value (.num 1), .value (.num 2)⟩, 1⟩ 0 (.vector 0)).1
  have hor : Slot.jsOr (.vector 0) (.value (.num 0)) = .vector 0 := rfl
  rw [hor] at hread
  have heq : LiveVector2.equals
      (LiveVector2.set ⟨fun _ => ⟨.value (.num 1), .value (.num 2)⟩, 1⟩ 0 (.vector 0)).1 0
      (.vector 0) =
      .error (.error "The argument must be a Vector like object \x7bx, y\x7d.") := by
    simp only [LiveVector2.equals, LiveVector2.is2DVectorLike, Slot.x, Slot.y, hread,
      Slot.isNumber, Slot.isDefined, Bool.and_false, Bool.and_self, assert]
    rfl
  refine ⟨rfl, hread, ?_, heq, ?_⟩
  · simp [LiveVector2.isOK, hread, Slot.isNumber]
  · rw [heq]
    exact fun h => Except.noConfusion h

/-- C20 (amended): for every `Vector2` `v` of a store and every 2D vector-like
operand `w` that is an object other than `v` itself (an object outside the
store or another vector of it), `v.set(w)` returns `v` with both components
holding `w` itself; afterwards `v.isOK()` is false and `v.equals(w)` returns
false. With `v` itself as the operand both components hold `v`, `v.isOK()` is
false, and `v.equals(v)` throws. -/
theorem C20_set_stores_the_operand (s : Store LiveVector2) (v : Nat) (w : Slot)
    (hw : LiveVector2.is2DVectorLike s w = true) :
    (LiveVector2.set s v w).1.read v = ⟨w, w⟩ ∧
      (LiveVector2.set s v w).2 = .receiver ∧
      LiveVector2.isOK (LiveVector2.set s v w).1 v = false ∧
      (w ≠ .vector v → LiveVector2.equals (LiveVector2.set s v w).1 v w = .ok false) ∧
      (w = .vector v → LiveVector2.equals (LiveVector2.set s v w).1 v w =
        .error (.error "The argument must be a Vector like object \x7bx, y\x7d.")) := by
  obtain ⟨ht, hn, hs⟩ := LiveVector2.object_of_is2DVectorLike s w hw
  have hor : w.jsOr (.value (.num 0)) = w := by simp [Slot.jsOr, ht]
  have hread : (LiveVector2.set s v w).1.read v = ⟨w, w⟩ := by
    rw [(LiveVector2.set_read_self s v w).1, hor]
  refine ⟨hread, (LiveVector2.set_read_self s v w).2, ?_, ?_, ?_⟩
  · simp [LiveVector2.isOK, hread, hn]
  · intro hne
    have hsame : LiveVector2.is2DVectorLike (LiveVector2.set s v w).1 w = true ∧
        (w.x (LiveVector2.set s v w).1).isNumber = true := by
      cases w with
      | value u =>
        have h1 : LiveVector2.is2DVectorLike (LiveVector2.set s v (.value u)).1 (.value u) =
            LiveVector2.is2DVectorLike s (.value u) := rfl
        rw [h1]
        refine ⟨hw, ?_⟩
        simp only [LiveVector2.is2DVectorLike, Slot.x, Bool.and_eq_true] at hw
        exact hw.1.2
      | vector a =>
        have ha : a ≠ v := fun h => hne (by rw [h])
        have hr := LiveVector2.set_read_other s v a (.vector a) ha
        simp only [LiveVector2.is2DVectorLike, Slot.x, Slot.y, hr]
        simp only [LiveVector2.is2DVectorLike, Slot.x, Slot.y, Bool.and_eq_true] at hw
        exact ⟨by simp [hw.1.2, hw.2, Slot.isDefined], hw.1.2⟩
    simp [LiveVector2.equals, hsame.1, assert, hread, hs _ hsame.2]
  · intro heq
    subst heq
    have hnot : LiveVector2.is2DVectorLike (LiveVector2.set s v (.vector v)).1 (.vector v) =
        false := by
      simp [LiveVector2.is2DVectorLike, Slot.x, hread, Slot.isNumber]
    simp only [LiveVector2.equals, hnot, assert]
    rfl

/-- C20 (amended) in the store whose vectors are `v = (1, 2)` at address `0`
and `w = (3, 4)` at address `1`, with `w` as the operand of `v.set`. -/
theorem C20_set_stores_the_operand_witness :
    (LiveVector2.set
        ⟨fun a => if a = 0 then ⟨.value (.num 1), .value (.num 2)⟩
          else ⟨.value (.num 3), .value (.num 4)⟩, 2⟩ 0 (.vector 1)).1.read 0 =
        ⟨.vector 1, .vector 1⟩ ∧
      (LiveVector2.set
        ⟨fun a => if a = 0 then ⟨.value (.num 1), .value (.num 2)⟩
          else ⟨.value (.num 3), .value (.num 4)⟩, 2⟩ 0 (.vector 1)).2 = .receiver ∧
      LiveVector2.isOK (LiveVector2.set
        ⟨fun a => if a = 0 then ⟨.value (.num 1), .value (.num 2)⟩
          else ⟨.value (.num 3), .value (.num 4)⟩, 2⟩ 0 (.vector 1)).1 0 = false ∧
      LiveVector2.equals (LiveVector2.set
        ⟨fun a => if a = 0 then ⟨.value (.num 1), .value (.num 2)⟩
          else ⟨.value (.num 3), .value (.num 4)⟩, 2⟩ 0 (.vector 1)).1 0 (.vector 1) =
        .ok false := by
  have h := C20_set_stores_the_operand
    ⟨fun a => if a = 0 then ⟨.value (.num 1), .value (.num 2)⟩
      else ⟨.value (.num 3), .value (.num 4)⟩, 2⟩ 0 (.vector 1) rfl
  exact ⟨h.1, h.2.1, h.2.2.1, h.2.2.2.1 (fun e => by cases e)⟩

end VectorLib
